import Mathlib

/-!
LearningVulkan: the graphics-device bring-up of `core::Application`.

A shallow embedding of `MinecraftRecoded/src/Core/Application.cpp`.

* Driver and windowing-layer answers are inputs: a physical device is the record of what
  the Vulkan queries return for it, on the path where every call returns `VK_SUCCESS`
  (the `assert` after each call is the identity there).
* `uint32_t` values are natural numbers; the one wrapping operation (`minImageCount + 1`)
  is reduced modulo `2^32`, and the `int32_t` framebuffer size is reinterpreted as
  `uint32_t` the way the pointer cast in the source does.
* Handles and function addresses are natural numbers, `0` being `VK_NULL_HANDLE` / `nullptr`.
* Calls made to the driver are recorded in explicit traces.
-/

namespace LearningVulkan

/-! ## Constants of the Vulkan and C headers used by the source -/

def UINT32_MAX : Nat := 4294967295
def VK_TRUE : Nat := 1
def VK_FALSE : Nat := 0
def VK_NULL_HANDLE : Nat := 0
def VK_QUEUE_GRAPHICS_BIT : Nat := 1
def VK_PHYSICAL_DEVICE_TYPE_DISCRETE_GPU : Nat := 2
def VK_FORMAT_B8G8R8A8_SRGB : Nat := 50
def VK_COLOR_SPACE_SRGB_NONLINEAR_KHR : Nat := 0
def VK_PRESENT_MODE_FIFO_KHR : Nat := 2
def VK_SHARING_MODE_EXCLUSIVE : Nat := 0
def VK_SHARING_MODE_CONCURRENT : Nat := 1
def VK_ERROR_EXTENSION_NOT_PRESENT : Int := -7
def VK_STRUCTURE_TYPE_SWAPCHAIN_CREATE_INFO_KHR : Nat := 1000001000
def VK_IMAGE_USAGE_COLOR_ATTACHMENT_BIT : Nat := 16
def VK_COMPOSITE_ALPHA_OPAQUE_BIT_KHR : Nat := 1
def VK_KHR_SWAPCHAIN_EXTENSION_NAME : String := "VK_KHR_swapchain"

/-! ## Data model -/

structure VkExtent2D where
  width : Nat
  height : Nat
deriving DecidableEq

structure VkSurfaceCapabilitiesKHR where
  minImageCount : Nat
  maxImageCount : Nat
  currentExtent : VkExtent2D
  minImageExtent : VkExtent2D
  maxImageExtent : VkExtent2D
  currentTransform : Nat
deriving DecidableEq

structure VkSurfaceFormatKHR where
  format : Nat
  colorSpace : Nat
deriving DecidableEq

structure VkQueueFamilyProperties where
  queueFlags : Nat
  queueCount : Nat
deriving DecidableEq

structure VkExtensionProperties where
  extensionName : String
  specVersion : Nat
deriving DecidableEq

/-- The local struct `QueueFamilyIndices` of the constructor: two `std::optional<uint32_t>`. -/
structure QueueFamilyIndices where
  graphics : Option Nat := none
  present : Option Nat := none
deriving DecidableEq

/-- The method `QueueFamilyIndices::IsComplete`. -/
def QueueFamilyIndices.IsComplete (q : QueueFamilyIndices) : Bool :=
  q.graphics.isSome && q.present.isSome

/-- The method `QueueFamilyIndices::GetIndices`: asserts completeness (`none` is the failed assertion),
then `std::to_array({ graphics.value(), present.value() })`. -/
def QueueFamilyIndices.GetIndices (q : QueueFamilyIndices) : Option (List Nat) :=
  match q.graphics, q.present with
  | some g, some p => some [g, p]
  | _, _ => none

/-! ## The queue family scan (Application.cpp, lines 222-235) -/

/-- The test `queueFamily.queueFlags & VK_QUEUE_GRAPHICS_BIT`. -/
def hasGraphicsBit (queueFamily : VkQueueFamilyProperties) : Bool :=
  queueFamily.queueFlags &&& VK_QUEUE_GRAPHICS_BIT != 0

/-- One pass of the body of the queue family loop at index `i`; `presentSupport` is the
value written by `vkGetPhysicalDeviceSurfaceSupportKHR` for family `i`. -/
def scanStep (queueFamily : VkQueueFamilyProperties) (presentSupport : Nat) (i : Nat)
    (pending : QueueFamilyIndices) : QueueFamilyIndices :=
  let pending := if hasGraphicsBit queueFamily then { pending with graphics := some i } else pending
  if presentSupport = VK_TRUE then { pending with present := some i } else pending

/-- The loop `for (uint32_t i = 0; i < queueFamilyCount && !pending.IsComplete(); i++)`,
started at index `i` on the families from `i` on. `surfaceSupport i` is the driver's
`VkBool32` answer for family `i`. The count is a `uint32_t`, so `i` never wraps. -/
def scanFrom (surfaceSupport : Nat → Nat) :
    List VkQueueFamilyProperties → Nat → QueueFamilyIndices → QueueFamilyIndices
  | [], _, pending => pending
  | queueFamily :: rest, i, pending =>
    if pending.IsComplete then pending
    else scanFrom surfaceSupport rest (i + 1) (scanStep queueFamily (surfaceSupport i) i pending)

/-- The queue family scan of one device: `pendingQueueFamilyIndices` after the loop. -/
def scanQueueFamilies (queueFamilies : List VkQueueFamilyProperties)
    (surfaceSupport : Nat → Nat) : QueueFamilyIndices :=
  scanFrom surfaceSupport queueFamilies 0 {}

/-! ## Device extension check (lines 243-271) -/

/-- The array `requiredDeviceExtensions`. -/
def requiredDeviceExtensions : List String := [VK_KHR_SWAPCHAIN_EXTENSION_NAME]

/-- The loop computing `hasRequiredExtensions`: each required name is searched with
`std::find_if` and `strcmp`; the first missing one sets the flag to false and breaks. -/
def hasRequiredExtensions (availableExtensions : List VkExtensionProperties) :
    List String → Bool
  | [] => true
  | cpRequiredExtension :: rest =>
    match availableExtensions.find? (fun crAvailableExtension =>
        crAvailableExtension.extensionName == cpRequiredExtension) with
    | none => false
    | some _ => hasRequiredExtensions availableExtensions rest

/-! ## Swap chain facts of a candidate device (lines 297-338) -/

/-- The test on one surface format inside the format loop. -/
def isPreferredFormat (crFormat : VkSurfaceFormatKHR) : Bool :=
  crFormat.format == VK_FORMAT_B8G8R8A8_SRGB &&
    crFormat.colorSpace == VK_COLOR_SPACE_SRGB_NONLINEAR_KHR

/-- The range-for over `formats` with its `break`; `chosen` is `swapChainSurfaceFormat`
before the loop. -/
def chooseFormatLoop : List VkSurfaceFormatKHR → VkSurfaceFormatKHR → VkSurfaceFormatKHR
  | [], chosen => chosen
  | crFormat :: rest, chosen =>
    if isPreferredFormat crFormat then crFormat else chooseFormatLoop rest chosen

/-- Surface format choice: `formats.front()`, then the loop. The empty list (where
`front()` is undefined) gives `none`; the source rejects it before this point. -/
def chooseSurfaceFormat (formats : List VkSurfaceFormatKHR) : Option VkSurfaceFormatKHR :=
  match formats with
  | [] => none
  | front :: _ => some (chooseFormatLoop formats front)

/-- The function `std::clamp(v, lo, hi)`; its precondition is `lo <= hi`. -/
def clamp (v lo hi : Nat) : Nat :=
  if v < lo then lo else if hi < v then hi else v

/-- An `int32_t` written through a pointer cast to `uint32_t*` and read back as `uint32_t`. -/
def toUint32 (x : Int) : Nat := (x % 4294967296).toNat

/-- Swap chain extent choice (lines 332-338). `fbWidth`, `fbHeight` are the `int` values
`glfwGetFramebufferSize` writes. -/
def chooseSwapChainExtent (surfaceCapabilities : VkSurfaceCapabilitiesKHR)
    (fbWidth fbHeight : Int) : VkExtent2D :=
  let swapChainExtent := surfaceCapabilities.currentExtent
  if swapChainExtent.width = UINT32_MAX ∨ swapChainExtent.height = UINT32_MAX then
    let swapChainExtent : VkExtent2D := { width := toUint32 fbWidth, height := toUint32 fbHeight }
    let swapChainExtent := { swapChainExtent with
      width := clamp swapChainExtent.width surfaceCapabilities.minImageExtent.width
        surfaceCapabilities.maxImageExtent.width }
    { swapChainExtent with
      height := clamp swapChainExtent.height surfaceCapabilities.minImageExtent.height
        surfaceCapabilities.maxImageExtent.height }
  else swapChainExtent

/-! ## Physical device selection (lines 198-346) -/

/-- What the driver answers about one physical device and the window surface. -/
structure PhysicalDevice where
  handle : Nat
  deviceType : Nat
  queueFamilies : List VkQueueFamilyProperties
  surfaceSupport : Nat → Nat
  availableExtensions : List VkExtensionProperties
  surfaceCapabilities : VkSurfaceCapabilitiesKHR
  formats : List VkSurfaceFormatKHR
  presentModes : List Nat

/-- The variables the device loop writes: the locals declared at lines 198-202 (`none`
while uninitialised), the member `m_pPhysicalDevice`, and the handles of the devices the
loop body was entered for, in order. -/
structure Selection where
  queueFamilyIndices : QueueFamilyIndices := {}
  swapChainCapabilities : Option VkSurfaceCapabilitiesKHR := none
  swapChainSurfaceFormat : Option VkSurfaceFormatKHR := none
  swapChainPresentMode : Option Nat := none
  swapChainExtent : Option VkExtent2D := none
  m_pPhysicalDevice : Nat := VK_NULL_HANDLE
  examined : List Nat := []
deriving DecidableEq

/-- The loop `for (VkPhysicalDevice pPhysicalDevice : physicalDevices)` with its four
`continue`s and the final `break`. -/
def selectLoop (fbWidth fbHeight : Int) : List PhysicalDevice → Selection → Selection
  | [], st => st
  | d :: rest, st =>
    let st := { st with examined := st.examined ++ [d.handle] }
    if d.deviceType ≠ VK_PHYSICAL_DEVICE_TYPE_DISCRETE_GPU then
      selectLoop fbWidth fbHeight rest st
    else
      let pendingQueueFamilyIndices := scanQueueFamilies d.queueFamilies d.surfaceSupport
      if !pendingQueueFamilyIndices.IsComplete then
        selectLoop fbWidth fbHeight rest st
      else
        let st := { st with queueFamilyIndices := pendingQueueFamilyIndices }
        if !hasRequiredExtensions d.availableExtensions requiredDeviceExtensions then
          selectLoop fbWidth fbHeight rest st
        else if d.formats.isEmpty || d.presentModes.isEmpty then
          selectLoop fbWidth fbHeight rest st
        else
          { st with
            swapChainCapabilities := some d.surfaceCapabilities
            swapChainSurfaceFormat := chooseSurfaceFormat d.formats
            swapChainPresentMode := some VK_PRESENT_MODE_FIFO_KHR
            swapChainExtent := some (chooseSwapChainExtent d.surfaceCapabilities fbWidth fbHeight)
            m_pPhysicalDevice := d.handle }

/-- The device loop run from the state at line 203: locals uninitialised and
`m_pPhysicalDevice = VK_NULL_HANDLE`. -/
def selectPhysicalDevice (fbWidth fbHeight : Int) (physicalDevices : List PhysicalDevice) :
    Selection :=
  selectLoop fbWidth fbHeight physicalDevices {}

/-- The four checks of the loop body on one device. -/
def isSuitable (d : PhysicalDevice) : Bool :=
  d.deviceType == VK_PHYSICAL_DEVICE_TYPE_DISCRETE_GPU &&
  (scanQueueFamilies d.queueFamilies d.surfaceSupport).IsComplete &&
  hasRequiredExtensions d.availableExtensions requiredDeviceExtensions &&
  !(d.formats.isEmpty || d.presentModes.isEmpty)

/-- Lines 164-346 with their two assertions on the outcome: the enumeration reports at
least one device (line 166), and after the loop `m_pPhysicalDevice` is not
`VK_NULL_HANDLE` (line 345). A failed assertion is the error carrying its message. -/
def selectOrAbort (fbWidth fbHeight : Int) (physicalDevices : List PhysicalDevice) :
    Except String Selection :=
  if physicalDevices.length = 0 then
    Except.error "Failed to get physical device count."
  else
    let sel := selectPhysicalDevice fbWidth fbHeight physicalDevices
    if sel.m_pPhysicalDevice = VK_NULL_HANDLE then
      Except.error "Failed to find suitable physical device."
    else Except.ok sel

/-! ## Logical device creation (lines 348-387) -/

/-- The method `QueueFamilyIndices::GetUniqueIndices`: asserts completeness (`none` is the
failed assertion), then the set holding `graphics.value()` and `present.value()`, listed
without repetition. The iteration order of the `std::unordered_set` is unspecified; the
list is in insertion order. -/
def QueueFamilyIndices.GetUniqueIndices (q : QueueFamilyIndices) : Option (List Nat) :=
  match q.graphics, q.present with
  | some g, some p => some (if g = p then [g] else [g, p])
  | _, _ => none

/-- The struct `VkDeviceQueueCreateInfo` without its priority pointer, which always points
to the constant 1.0f. -/
structure VkDeviceQueueCreateInfo where
  queueFamilyIndex : Nat
  queueCount : Nat
deriving DecidableEq

/-- What logical device creation hands to the driver: the physical device and create info
of `vkCreateDevice`, and the queue families passed to the two `vkGetDeviceQueue` calls. -/
structure LogicalDeviceSetup where
  physicalDevice : Nat
  deviceQueueCreateInfos : List VkDeviceQueueCreateInfo
  ppEnabledExtensionNames : List String
  graphicsQueueFamily : Nat
  presentQueueFamily : Nat
deriving DecidableEq

/-- Lines 349-387 on the variables left by the device loop. -/
def createLogicalDevice (sel : Selection) : Option LogicalDeviceSetup :=
  match sel.queueFamilyIndices.GetUniqueIndices, sel.queueFamilyIndices.graphics,
      sel.queueFamilyIndices.present with
  | some uniqueQueueFamilyIndices, some graphics, some present =>
    some { physicalDevice := sel.m_pPhysicalDevice
           deviceQueueCreateInfos := uniqueQueueFamilyIndices.map (fun queueFamilyIndex =>
             { queueFamilyIndex := queueFamilyIndex, queueCount := 1 })
           ppEnabledExtensionNames := requiredDeviceExtensions
           graphicsQueueFamily := graphics
           presentQueueFamily := present }
  | _, _, _ => none

/-! ## Swap chain creation (lines 389-426) -/

/-- The image count computed at lines 392-394, in `uint32_t` arithmetic. -/
def requestedImageCount (swapChainCapabilities : VkSurfaceCapabilitiesKHR) : Nat :=
  let imageCount := (swapChainCapabilities.minImageCount + 1) % 4294967296
  if swapChainCapabilities.maxImageCount > 0 ∧ imageCount > swapChainCapabilities.maxImageCount then
    swapChainCapabilities.maxImageCount
  else imageCount

/-- The struct `VkSwapchainCreateInfoKHR`, without `pNext` and `flags`, which the source
leaves zero. The defaults are the
value-initialisation `swapChainCreateInfo{}`; `pQueueFamilyIndices = none` is `nullptr`,
`some l` a pointer to the array `l`. -/
structure VkSwapchainCreateInfoKHR where
  sType : Nat := 0
  surface : Nat := 0
  minImageCount : Nat := 0
  imageFormat : Nat := 0
  imageColorSpace : Nat := 0
  imageExtent : VkExtent2D := { width := 0, height := 0 }
  imageArrayLayers : Nat := 0
  imageUsage : Nat := 0
  imageSharingMode : Nat := 0
  queueFamilyIndexCount : Nat := 0
  pQueueFamilyIndices : Option (List Nat) := none
  preTransform : Nat := 0
  compositeAlpha : Nat := 0
  presentMode : Nat := 0
  clipped : Nat := 0
  oldSwapchain : Nat := 0
deriving DecidableEq

/-- Lines 406-414: the sharing mode and queue family index list written into the create
info. `none` is the failed assertion of `GetIndices`. -/
def setSharingMode (queueFamilyIndices : QueueFamilyIndices)
    (swapChainCreateInfo : VkSwapchainCreateInfoKHR) : Option VkSwapchainCreateInfoKHR :=
  match queueFamilyIndices.GetIndices with
  | none => none
  | some indices =>
    if queueFamilyIndices.graphics ≠ queueFamilyIndices.present then
      some { swapChainCreateInfo with
        imageSharingMode := VK_SHARING_MODE_CONCURRENT
        queueFamilyIndexCount := 2
        pQueueFamilyIndices := some indices }
    else
      some { swapChainCreateInfo with imageSharingMode := VK_SHARING_MODE_EXCLUSIVE }

/-- What swap chain creation leaves behind: the create info handed to
`vkCreateSwapchainKHR` and the two members assigned at lines 425-426. -/
structure SwapChainSetup where
  swapChainCreateInfo : VkSwapchainCreateInfoKHR
  m_SwapChainFormat : Nat
  m_SwapChainExtent : VkExtent2D
deriving DecidableEq

/-- Lines 391-426 on the variables left by the device loop. Reading a local the loop
never wrote gives `none`. -/
def createSwapChain (m_pSurface : Nat) (sel : Selection) : Option SwapChainSetup :=
  match sel.swapChainCapabilities, sel.swapChainSurfaceFormat, sel.swapChainPresentMode,
      sel.swapChainExtent with
  | some swapChainCapabilities, some swapChainSurfaceFormat, some swapChainPresentMode,
      some swapChainExtent =>
    let swapChainCreateInfo : VkSwapchainCreateInfoKHR := {}
    let swapChainCreateInfo := { swapChainCreateInfo with
      sType := VK_STRUCTURE_TYPE_SWAPCHAIN_CREATE_INFO_KHR
      surface := m_pSurface
      minImageCount := requestedImageCount swapChainCapabilities
      imageFormat := swapChainSurfaceFormat.format
      imageColorSpace := swapChainSurfaceFormat.colorSpace
      imageExtent := swapChainExtent
      imageArrayLayers := 1
      imageUsage := VK_IMAGE_USAGE_COLOR_ATTACHMENT_BIT }
    match setSharingMode sel.queueFamilyIndices swapChainCreateInfo with
    | none => none
    | some swapChainCreateInfo =>
      let swapChainCreateInfo := { swapChainCreateInfo with
        preTransform := swapChainCapabilities.currentTransform
        compositeAlpha := VK_COMPOSITE_ALPHA_OPAQUE_BIT_KHR
        presentMode := swapChainPresentMode
        clipped := VK_TRUE
        oldSwapchain := VK_NULL_HANDLE }
      some { swapChainCreateInfo := swapChainCreateInfo
             m_SwapChainFormat := swapChainSurfaceFormat.format
             m_SwapChainExtent := swapChainExtent }
  | _, _, _, _ => none

/-! ## Extension function calls (lines 10-32) -/

/-- Calls recorded in traces. `vkCallVoidFunctionEXT` is a use of that macro in a member
function (the entry into `vkCallFunctionEXT_IMPL`), `vkGetInstanceProcAddr` the underlying
lookup, `callExt` the call through a resolved extension function pointer; the others are
the driver and GLFW functions of the same names. -/
inductive Call where
  | vkCallVoidFunctionEXT (pInstance : Nat) (name : String) (args : List Nat)
  | vkGetInstanceProcAddr (pInstance : Nat) (name : String)
  | callExt (fFunction : Nat) (pInstance : Nat) (args : List Nat)
  | vkDestroyImageView (pDevice : Nat) (pImageView : Nat)
  | vkDestroySwapchainKHR (pDevice : Nat) (pSwapChain : Nat)
  | vkDestroyDevice (pDevice : Nat)
  | vkDestroySurfaceKHR (pInstance : Nat) (pSurface : Nat)
  | vkDestroyInstance (pInstance : Nat)
  | glfwDestroyWindow (pWindow : Nat)
  | glfwTerminate
deriving DecidableEq

/-- A `const char*` argument: `ptr` is the pointer value, `text` the characters it
points to. -/
structure CStr where
  ptr : Nat
  text : String
deriving DecidableEq

/-- The driver side of an extension call: what `vkGetInstanceProcAddr` returns for an
instance and a name, and what the function at an address returns when called. -/
structure Driver where
  vkGetInstanceProcAddr : Nat → String → Nat
  invoke : Nat → Nat → List Nat → Int

/-- The member `find` of `std::unordered_map<const char*, PFN_vkVoidFunction>`; the key is
hashed and compared as a pointer. `none` is `end()`. -/
def mapFind (m : List (Nat × Nat)) (key : Nat) : Option Nat :=
  match m with
  | [] => none
  | (k, v) :: rest => if k = key then some v else mapFind rest key

/-- The assignment `m[key] = value` on the map. -/
def mapAssign (m : List (Nat × Nat)) (key value : Nat) : List (Nat × Nat) :=
  (key, value) :: m.filter (fun kv => kv.1 != key)

/-- The outcome of one `vkCallFunctionEXT_IMPL` call: the static map afterwards, the
local `fFunction`, the returned value and the driver calls made, in order. -/
structure ExtResult where
  s_VulkanExtensionFunctions : List (Nat × Nat)
  fFunction : Nat
  ret : Int
  calls : List Call
deriving DecidableEq

/-- The function template `vkCallFunctionEXT_IMPL`, with the static map passed in. -/
def vkCallFunctionEXT_IMPL (driver : Driver) (s_VulkanExtensionFunctions : List (Nat × Nat))
    (pInstance : Nat) (cpFunctionName : CStr) (args : List Nat) : ExtResult :=
  let resolved : List (Nat × Nat) × Nat × List Call :=
    match mapFind s_VulkanExtensionFunctions cpFunctionName.ptr with
    | some second => (s_VulkanExtensionFunctions, second, [])
    | none =>
      let fFunction := driver.vkGetInstanceProcAddr pInstance cpFunctionName.text
      (mapAssign s_VulkanExtensionFunctions cpFunctionName.ptr fFunction, fFunction,
        [Call.vkGetInstanceProcAddr pInstance cpFunctionName.text])
  let fFunction := resolved.2.1
  if fFunction = 0 then
    { s_VulkanExtensionFunctions := resolved.1, fFunction := fFunction
      ret := VK_ERROR_EXTENSION_NOT_PRESENT, calls := resolved.2.2 }
  else
    { s_VulkanExtensionFunctions := resolved.1, fFunction := fFunction
      ret := driver.invoke fFunction pInstance args
      calls := resolved.2.2 ++ [Call.callExt fFunction pInstance args] }

/-- One request to `vkCallFunctionEXT_IMPL`. -/
structure ExtRequest where
  pInstance : Nat
  cpFunctionName : CStr
  args : List Nat
deriving DecidableEq

/-- A sequence of `vkCallFunctionEXT_IMPL` calls threaded through the static map; the
outcomes are listed in call order. -/
def runRequests (driver : Driver) : List ExtRequest → List (Nat × Nat) → List ExtResult
  | [], _ => []
  | r :: rest, m =>
    let out := vkCallFunctionEXT_IMPL driver m r.pInstance r.cpFunctionName r.args
    out :: runRequests driver rest out.s_VulkanExtensionFunctions

/-- Whether an outcome contains a call of the underlying lookup. -/
def ExtResult.lookedUp (out : ExtResult) : Bool :=
  out.calls.any (fun c => match c with
    | Call.vkGetInstanceProcAddr _ _ => true
    | _ => false)

/-! ## Teardown (lines 471-485) -/

/-- The members read by the destructor. -/
structure Application where
  m_pWindow : Nat
  m_pInstance : Nat
  m_pDebugMessenger : Nat
  m_pDevice : Nat
  m_pSurface : Nat
  m_pSwapChain : Nat
  m_SwapChainImageViews : List Nat
deriving DecidableEq

/-- The name argument the macro `vkCallVoidFunctionEXT` builds from
`vkDestroyDebugUtilsMessengerEXT`: the string literal of that text, stored at `literal`. -/
def destroyMessengerName (literal : Nat) : CStr :=
  { ptr := literal, text := "vkDestroyDebugUtilsMessengerEXT" }

/-- The messenger destruction at line 479, compiled only when `CONFIG_DIST` is off: the
macro call, followed in the trace by what `vkCallFunctionEXT_IMPL` calls inside. -/
def destroyDebugMessenger (CONFIG_DIST : Bool) (driver : Driver) (literal : Nat)
    (m : List (Nat × Nat)) (app : Application) : List (Nat × Nat) × List Call :=
  if CONFIG_DIST then (m, [])
  else
    let out := vkCallFunctionEXT_IMPL driver m app.m_pInstance (destroyMessengerName literal)
      [app.m_pDebugMessenger, 0]
    (out.s_VulkanExtensionFunctions,
      Call.vkCallVoidFunctionEXT app.m_pInstance (destroyMessengerName literal).text
        [app.m_pDebugMessenger, 0] :: out.calls)

/-- The destructor `Application::~Application`: the static map afterwards and the
calls made, in order. -/
def Application.destructor (CONFIG_DIST : Bool) (driver : Driver) (literal : Nat)
    (m : List (Nat × Nat)) (app : Application) : List (Nat × Nat) × List Call :=
  let views := app.m_SwapChainImageViews.map (fun pImageView =>
    Call.vkDestroyImageView app.m_pDevice pImageView)
  let messenger := destroyDebugMessenger CONFIG_DIST driver literal m app
  (messenger.1,
    views ++ [Call.vkDestroySwapchainKHR app.m_pDevice app.m_pSwapChain,
      Call.vkDestroyDevice app.m_pDevice,
      Call.vkDestroySurfaceKHR app.m_pInstance app.m_pSurface] ++ messenger.2 ++
      [Call.vkDestroyInstance app.m_pInstance,
       Call.glfwDestroyWindow app.m_pWindow,
       Call.glfwTerminate])

/-- A trace puts `a` before `b`: it splits into two parts, the first holding every
occurrence of `a` (at least one) and the second every occurrence of `b` (at least one). -/
def Precedes (trace : List Call) (a b : Call) : Prop :=
  ∃ front back, trace = front ++ back ∧ a ∈ front ∧ a ∉ back ∧ b ∈ back ∧ b ∉ front

/-! ## Predicates used to state the properties -/

/-- Family `k` of the list exists and has the graphics bit. -/
def graphicsAt (queueFamilies : List VkQueueFamilyProperties) (k : Nat) : Bool :=
  match queueFamilies[k]? with
  | some queueFamily => hasGraphicsBit queueFamily
  | none => false

/-- Family `k` of the list exists and the driver reports present support for it. -/
def presentAt (queueFamilies : List VkQueueFamilyProperties) (surfaceSupport : Nat → Nat)
    (k : Nat) : Bool :=
  decide (k < queueFamilies.length) && surfaceSupport k == VK_TRUE

/-- The scan "records the first matching index for each requirement": when it ends
complete, the graphics index is the smallest index with the graphics bit and the present
index the smallest index with present support. -/
def RecordsFirstMatch (queueFamilies : List VkQueueFamilyProperties)
    (surfaceSupport : Nat → Nat) : Prop :=
  (scanQueueFamilies queueFamilies surfaceSupport).IsComplete = true →
    (∃ g, (scanQueueFamilies queueFamilies surfaceSupport).graphics = some g ∧
      graphicsAt queueFamilies g = true ∧ ∀ k, graphicsAt queueFamilies k = true → g ≤ k) ∧
    (∃ p, (scanQueueFamilies queueFamilies surfaceSupport).present = some p ∧
      presentAt queueFamilies surfaceSupport p = true ∧
      ∀ k, presentAt queueFamilies surfaceSupport k = true → p ≤ k)

/-- Three queue families: two with only the graphics bit, then a transfer-only one. -/
def twoGraphicsThenPresent : List VkQueueFamilyProperties :=
  [{ queueFlags := 1, queueCount := 1 }, { queueFlags := 1, queueCount := 1 },
   { queueFlags := 4, queueCount := 1 }]

/-- Present support reported for family 2 only. -/
def presentOnThird (i : Nat) : Nat := if i = 2 then VK_TRUE else VK_FALSE

/-! ## Example inputs and the properties as the specification words them -/

/-- The preferred pair (VK_FORMAT_B8G8R8A8_SRGB, VK_COLOR_SPACE_SRGB_NONLINEAR_KHR). -/
def preferredSurfaceFormat : VkSurfaceFormatKHR :=
  { format := VK_FORMAT_B8G8R8A8_SRGB, colorSpace := VK_COLOR_SPACE_SRGB_NONLINEAR_KHR }

/-- Three surface formats, the preferred pair last. -/
def preferredThird : List VkSurfaceFormatKHR :=
  [{ format := 44, colorSpace := 0 }, { format := 37, colorSpace := 0 },
   { format := 50, colorSpace := 0 }]

/-- Capabilities with an undefined current extent and extent bounds 1 .. 1024. -/
def undefinedExtentCaps : VkSurfaceCapabilitiesKHR :=
  { minImageCount := 2, maxImageCount := 8
    currentExtent := { width := 4294967295, height := 4294967295 }
    minImageExtent := { width := 1, height := 1 }
    maxImageExtent := { width := 1024, height := 1024 }
    currentTransform := 1 }
/-- Surface capabilities of a surface fixed at 1280 x 720. -/
def windowCaps : VkSurfaceCapabilitiesKHR :=
  { minImageCount := 2, maxImageCount := 8
    currentExtent := { width := 1280, height := 720 }
    minImageExtent := { width := 1280, height := 720 }
    maxImageExtent := { width := 1280, height := 720 }
    currentTransform := 1 }

/-- An integrated GPU that passes every check but the device type. -/
def integratedGpu : PhysicalDevice :=
  { handle := 101, deviceType := 1
    queueFamilies := [{ queueFlags := 15, queueCount := 1 }]
    surfaceSupport := fun _ => VK_TRUE
    availableExtensions := [{ extensionName := "VK_KHR_swapchain", specVersion := 70 }]
    surfaceCapabilities := windowCaps
    formats := [{ format := 50, colorSpace := 0 }]
    presentModes := [2] }

/-- A discrete GPU whose family 0 has the graphics bit and whose family 1 presents. -/
def discreteGpu : PhysicalDevice :=
  { handle := 102, deviceType := 2
    queueFamilies := [{ queueFlags := 15, queueCount := 16 }, { queueFlags := 4, queueCount := 2 }]
    surfaceSupport := fun i => if i = 1 then VK_TRUE else VK_FALSE
    availableExtensions := [{ extensionName := "VK_KHR_maintenance1", specVersion := 2 },
      { extensionName := "VK_KHR_swapchain", specVersion := 70 }]
    surfaceCapabilities := windowCaps
    formats := [{ format := 44, colorSpace := 0 }, { format := 50, colorSpace := 0 }]
    presentModes := [2, 0] }

/-- A second discrete GPU, also passing every check. -/
def otherDiscreteGpu : PhysicalDevice :=
  { handle := 103, deviceType := 2
    queueFamilies := [{ queueFlags := 15, queueCount := 16 }]
    surfaceSupport := fun _ => VK_TRUE
    availableExtensions := [{ extensionName := "VK_KHR_swapchain", specVersion := 70 }]
    surfaceCapabilities := undefinedExtentCaps
    formats := [{ format := 50, colorSpace := 0 }]
    presentModes := [2] }

/-- An enumeration of three devices, the first suitable one at index 1. -/
def exampleDevices : List PhysicalDevice := [integratedGpu, discreteGpu, otherDiscreteGpu]

/-- A driver resolving only `vkDestroyDebugUtilsMessengerEXT`. -/
def exampleDriver : Driver :=
  { vkGetInstanceProcAddr := fun _ name =>
      if name = "vkDestroyDebugUtilsMessengerEXT" then 7001 else 0
    invoke := fun _ _ _ => 0 }

/-- An application with two swap chain image views. -/
def exampleApp : Application :=
  { m_pWindow := 1, m_pInstance := 2, m_pDebugMessenger := 3, m_pDevice := 4, m_pSurface := 5
    m_pSwapChain := 6, m_SwapChainImageViews := [7, 8] }
/-- Memoization per name pointer: the same with equality of the `const char*` values
passed, which is what the map compares. -/
def MemoizesByPointer (driver : Driver) (m : List (Nat × Nat)) (requests : List ExtRequest) :
    Prop :=
  ∀ (i j : Nat) (ri rj : ExtRequest) (oi oj : ExtResult), i < j → requests[i]? = some ri → requests[j]? = some rj →
    ri.cpFunctionName.ptr = rj.cpFunctionName.ptr →
    (runRequests driver requests m)[i]? = some oi →
    (runRequests driver requests m)[j]? = some oj →
    oj.fFunction = oi.fFunction ∧ oj.lookedUp = false

/-- How many requests passing the pointer `key` made a lookup. -/
def lookupsForKey (key : Nat) (requests : List ExtRequest) (outs : List ExtResult) : Nat :=
  (requests.zip outs).countP (fun ro => ro.1.cpFunctionName.ptr == key && ro.2.lookedUp)

/-- How many requests for the name text `name` made a lookup. -/
def lookupsForName (name : String) (requests : List ExtRequest) (outs : List ExtResult) :
    Nat :=
  (requests.zip outs).countP (fun ro => ro.1.cpFunctionName.text == name && ro.2.lookedUp)

/-- An extent lies within the extent bounds of a surface capability, componentwise. -/
def ExtentWithinBounds (caps : VkSurfaceCapabilitiesKHR) (extent : VkExtent2D) : Prop :=
  caps.minImageExtent.width ≤ extent.width ∧ extent.width ≤ caps.maxImageExtent.width ∧
  caps.minImageExtent.height ≤ extent.height ∧ extent.height ≤ caps.maxImageExtent.height

/-- The extent bounds invariant on one run: whenever the device loop and swap chain
creation go through, the extent stored in `m_SwapChainExtent` and the extent passed to
swap chain creation lie within the bounds of the capabilities the loop kept. -/
def ExtentBoundsInvariant (fbWidth fbHeight : Int) (m_pSurface : Nat)
    (physicalDevices : List PhysicalDevice) : Prop :=
  ∀ (setup : SwapChainSetup) (caps : VkSurfaceCapabilitiesKHR),
    createSwapChain m_pSurface (selectPhysicalDevice fbWidth fbHeight physicalDevices) =
      some setup →
    (selectPhysicalDevice fbWidth fbHeight physicalDevices).swapChainCapabilities = some caps →
    ExtentWithinBounds caps setup.m_SwapChainExtent ∧
    ExtentWithinBounds caps setup.swapChainCreateInfo.imageExtent

/-- Capabilities whose current extent 100 x 100 is below the minimum extent 200 x 200. -/
def smallCurrentExtentCaps : VkSurfaceCapabilitiesKHR :=
  { minImageCount := 2, maxImageCount := 8
    currentExtent := { width := 100, height := 100 }
    minImageExtent := { width := 200, height := 200 }
    maxImageExtent := { width := 300, height := 300 }
    currentTransform := 1 }

/-- A discrete GPU passing every check and reporting `smallCurrentExtentCaps`. -/
def smallCurrentExtentGpu : PhysicalDevice :=
  { handle := 104, deviceType := 2
    queueFamilies := [{ queueFlags := 15, queueCount := 16 }]
    surfaceSupport := fun _ => VK_TRUE
    availableExtensions := [{ extensionName := "VK_KHR_swapchain", specVersion := 70 }]
    surfaceCapabilities := smallCurrentExtentCaps
    formats := [{ format := 50, colorSpace := 0 }]
    presentModes := [2] }

/-- A discrete GPU that passes the queue family check with graphics family 0 and present
family 1, and then fails the extension check. -/
def noSwapchainGpu : PhysicalDevice :=
  { handle := 105, deviceType := 2
    queueFamilies := [{ queueFlags := 15, queueCount := 16 }, { queueFlags := 4, queueCount := 2 }]
    surfaceSupport := fun i => if i = 1 then VK_TRUE else VK_FALSE
    availableExtensions := [{ extensionName := "VK_KHR_maintenance1", specVersion := 2 }]
    surfaceCapabilities := undefinedExtentCaps
    formats := [{ format := 44, colorSpace := 0 }]
    presentModes := [2] }

/-- An enumeration in which a candidate rejected after its queue family check comes before
the device that is selected. -/
def staleCandidateDevices : List PhysicalDevice := [noSwapchainGpu, otherDiscreteGpu]

/-- An enumeration without any suitable device: an integrated GPU and a discrete GPU
lacking the swap chain extension. -/
def unsuitableDevices : List PhysicalDevice := [integratedGpu, noSwapchainGpu]

/-- The four selection criteria read off the answers of one device, without the loops of
the source: the device type is discrete GPU; some queue family has bit 0 of its
`queueFlags` (the graphics bit) set and the driver reports present support for some queue
family; one of the available device extensions is named VK_KHR_swapchain; neither the
surface format list nor the present mode list is empty. -/
def MeetsSelectionCriteria (d : PhysicalDevice) : Prop :=
  d.deviceType = VK_PHYSICAL_DEVICE_TYPE_DISCRETE_GPU ∧
  (∃ q ∈ d.queueFamilies, q.queueFlags.testBit 0 = true) ∧
  (∃ i, i < d.queueFamilies.length ∧ d.surfaceSupport i = VK_TRUE) ∧
  (∃ e ∈ d.availableExtensions, e.extensionName = "VK_KHR_swapchain") ∧
  d.formats ≠ [] ∧ d.presentModes ≠ []

/-- A discrete GPU whose only queue family has the compute, transfer and sparse binding
bits but not the graphics bit. -/
def computeOnlyGpu : PhysicalDevice :=
  { handle := 106, deviceType := 2
    queueFamilies := [{ queueFlags := 14, queueCount := 8 }]
    surfaceSupport := fun _ => VK_TRUE
    availableExtensions := [{ extensionName := "VK_KHR_swapchain", specVersion := 70 }]
    surfaceCapabilities := windowCaps
    formats := [{ format := 50, colorSpace := 0 }]
    presentModes := [2] }

/-- An enumeration of five devices: an integrated GPU, a discrete GPU without the swap
chain extension, a discrete GPU without a graphics queue family, and two discrete GPUs
meeting every criterion. -/
def candidateDevices : List PhysicalDevice :=
  [integratedGpu, noSwapchainGpu, computeOnlyGpu, discreteGpu, otherDiscreteGpu]

/-- The uses of the macros `vkCallFunctionEXT` and `vkCallVoidFunctionEXT` in the file,
which are the only callers of the static function `vkCallFunctionEXT_IMPL`: the messenger
creation at line 155 and the messenger destruction at line 479. -/
inductive ExtCallSite where
  | createMessenger
  | destroyMessenger
deriving DecidableEq

/-- The name argument a use of the macros passes: the string literal made by `#func` at
that use, stored at the address `literal` gives for the use. -/
def callSiteName (literal : ExtCallSite → Nat) : ExtCallSite → CStr
  | ExtCallSite.createMessenger =>
    { ptr := literal ExtCallSite.createMessenger, text := "vkCreateDebugUtilsMessengerEXT" }
  | ExtCallSite.destroyMessenger => destroyMessengerName (literal ExtCallSite.destroyMessenger)

/-- One execution of a use of the macros: the use, the value of `m_pInstance` and the
forwarded arguments. -/
structure SiteCall where
  site : ExtCallSite
  pInstance : Nat
  args : List Nat
deriving DecidableEq

/-- The call of `vkCallFunctionEXT_IMPL` an execution of a use of the macros makes. -/
def siteRequest (literal : ExtCallSite → Nat) (c : SiteCall) : ExtRequest :=
  { pInstance := c.pInstance, cpFunctionName := callSiteName literal c.site, args := c.args }

/-- Addresses of the two string literals. -/
def exampleLiterals : ExtCallSite → Nat
  | ExtCallSite.createMessenger => 9100
  | ExtCallSite.destroyMessenger => 9000

/-- Three executions: the destruction at line 479, the creation at line 155, and the
destruction at line 479 again (a second application object). -/
def exampleSiteCalls : List SiteCall :=
  [{ site := ExtCallSite.destroyMessenger, pInstance := 2, args := [3, 0] },
   { site := ExtCallSite.createMessenger, pInstance := 2, args := [0, 0, 0] },
   { site := ExtCallSite.destroyMessenger, pInstance := 2, args := [4, 0] }]

/-! ## Theorems: the queue family scan -/

/-- A complete pending record stops the loop at once. -/
theorem scanFrom_of_complete (ss : Nat → Nat) (l : List VkQueueFamilyProperties) (i : Nat)
    (p : QueueFamilyIndices) (h : p.IsComplete = true) : scanFrom ss l i p = p := by
  cases l with
  | nil => rfl
  | cons q rest => simp [scanFrom, h]

theorem scanStep_graphics (q : VkQueueFamilyProperties) (ps i : Nat) (p : QueueFamilyIndices) :
    (scanStep q ps i p).graphics = if hasGraphicsBit q then some i else p.graphics := by
  unfold scanStep
  split <;> split <;> simp_all

theorem scanStep_present (q : VkQueueFamilyProperties) (ps i : Nat) (p : QueueFamilyIndices) :
    (scanStep q ps i p).present = if ps = VK_TRUE then some i else p.present := by
  unfold scanStep
  split <;> split <;> simp_all

theorem graphicsAt_cons_zero (q : VkQueueFamilyProperties) (rest : List VkQueueFamilyProperties) :
    graphicsAt (q :: rest) 0 = hasGraphicsBit q := by
  simp [graphicsAt]

theorem graphicsAt_cons_succ (q : VkQueueFamilyProperties) (rest : List VkQueueFamilyProperties)
    (k : Nat) : graphicsAt (q :: rest) (k + 1) = graphicsAt rest k := by
  simp [graphicsAt]

/-- Completeness of the loop result, for any start index and pending record. -/
theorem scanFrom_complete_iff (ss : Nat → Nat) (l : List VkQueueFamilyProperties) :
    ∀ (i : Nat) (p : QueueFamilyIndices),
      (scanFrom ss l i p).IsComplete = true ↔
        (p.graphics.isSome = true ∨ ∃ k, graphicsAt l k = true) ∧
        (p.present.isSome = true ∨ ∃ k, k < l.length ∧ ss (i + k) = VK_TRUE) := by
  induction l with
  | nil =>
    intro i p
    simp [scanFrom, QueueFamilyIndices.IsComplete, graphicsAt]
  | cons q rest ih =>
    intro i p
    by_cases hp : p.IsComplete = true
    · rw [scanFrom_of_complete ss _ i p hp]
      simp only [QueueFamilyIndices.IsComplete, Bool.and_eq_true] at hp
      simp [QueueFamilyIndices.IsComplete, hp.1, hp.2]
    · simp only [scanFrom, hp]
      rw [if_neg (by simp), ih, scanStep_graphics, scanStep_present]
      constructor
      · rintro ⟨hg, hpr⟩
        constructor
        · rcases hg with hg | ⟨k, hk⟩
          · by_cases hq : hasGraphicsBit q = true
            · exact Or.inr ⟨0, by simpa [graphicsAt_cons_zero] using hq⟩
            · simp [hq] at hg
              exact Or.inl (by simpa using hg)
          · exact Or.inr ⟨k + 1, by simpa [graphicsAt_cons_succ] using hk⟩
        · rcases hpr with hpr | ⟨k, hk, hs⟩
          · by_cases hq : ss i = VK_TRUE
            · exact Or.inr ⟨0, by simp, by simpa using hq⟩
            · simp [hq] at hpr
              exact Or.inl (by simpa using hpr)
          · exact Or.inr ⟨k + 1, by simpa using hk, by rw [← hs]; congr 1; omega⟩
      · rintro ⟨hg, hpr⟩
        constructor
        · rcases hg with hg | ⟨k, hk⟩
          · left; split <;> simp_all
          · cases k with
            | zero => left; rw [graphicsAt_cons_zero] at hk; simp [hk]
            | succ k => right; exact ⟨k, by simpa [graphicsAt_cons_succ] using hk⟩
        · rcases hpr with hpr | ⟨k, hk, hs⟩
          · left; split <;> simp_all
          · cases k with
            | zero => left; simp at hs; simp [hs]
            | succ k =>
              right
              exact ⟨k, by simpa using hk, by rw [← hs]; congr 1; omega⟩


/-- C3: the scan of a list of queue families ends complete exactly when some family of
the list has the graphics bit and some family (possibly the same) has present support. -/
theorem queue_family_completeness (queueFamilies : List VkQueueFamilyProperties)
    (surfaceSupport : Nat → Nat) :
    (scanQueueFamilies queueFamilies surfaceSupport).IsComplete = true ↔
      (∃ k, graphicsAt queueFamilies k = true) ∧
      (∃ k, presentAt queueFamilies surfaceSupport k = true) := by
  unfold scanQueueFamilies
  rw [scanFrom_complete_iff]
  simp [presentAt]

/-- Relative form of the description of a complete scan, by induction on the families
still to scan. -/
theorem scanFrom_last_match (ss : Nat → Nat) (l : List VkQueueFamilyProperties) :
    ∀ (i : Nat) (p : QueueFamilyIndices), p.IsComplete = false →
      (scanFrom ss l i p).IsComplete = true →
      ∃ s, s < l.length ∧
        ((∃ g, (scanFrom ss l i p).graphics = some (i + g) ∧ g ≤ s ∧ graphicsAt l g = true ∧
            ∀ k, g < k → k ≤ s → graphicsAt l k = false) ∨
          ((scanFrom ss l i p).graphics = p.graphics ∧ ∀ k, k ≤ s → graphicsAt l k = false)) ∧
        ((∃ g, (scanFrom ss l i p).present = some (i + g) ∧ g ≤ s ∧ ss (i + g) = VK_TRUE ∧
            ∀ k, g < k → k ≤ s → ss (i + k) ≠ VK_TRUE) ∨
          ((scanFrom ss l i p).present = p.present ∧ ∀ k, k ≤ s → ss (i + k) ≠ VK_TRUE)) ∧
        ((p.graphics = none ∧ ∀ k, k < s → graphicsAt l k = false) ∨
          (p.present = none ∧ ∀ k, k < s → ss (i + k) ≠ VK_TRUE)) := by
  induction l with
  | nil =>
    intro i p hp hc
    simp [scanFrom, hp] at hc
  | cons q rest ih =>
    intro i p hp hc
    have hunf : scanFrom ss (q :: rest) i p =
        scanFrom ss rest (i + 1) (scanStep q (ss i) i p) := by
      simp [scanFrom, hp]
    have hnone : p.graphics = none ∨ p.present = none := by
      simp only [QueueFamilyIndices.IsComplete] at hp
      cases hg : p.graphics <;> cases hpr : p.present <;> simp_all
    rw [hunf] at hc ⊢
    by_cases hstep : (scanStep q (ss i) i p).IsComplete = true
    · rw [scanFrom_of_complete ss rest (i + 1) _ hstep]
      refine ⟨0, by simp, ?_, ?_, ?_⟩
      · rw [scanStep_graphics]
        by_cases hq : hasGraphicsBit q = true
        · left
          exact ⟨0, by simp [hq], le_refl 0, by simpa [graphicsAt_cons_zero] using hq,
            fun k h1 h2 => by omega⟩
        · right
          refine ⟨by simp [hq], fun k hk => ?_⟩
          have : k = 0 := by omega
          subst this
          simpa [graphicsAt_cons_zero] using hq
      · rw [scanStep_present]
        by_cases hq : ss i = VK_TRUE
        · left
          exact ⟨0, by simp [hq], le_refl 0, by simpa using hq, fun k h1 h2 => by omega⟩
        · right
          refine ⟨by simp [hq], fun k hk => ?_⟩
          have : k = 0 := by omega
          subst this
          simpa using hq
      · rcases hnone with h | h
        · exact Or.inl ⟨h, fun k hk => by omega⟩
        · exact Or.inr ⟨h, fun k hk => by omega⟩
    · have hstep' : (scanStep q (ss i) i p).IsComplete = false := by simpa using hstep
      obtain ⟨s, hs, hG, hP, hM⟩ := ih (i + 1) _ hstep' hc
      refine ⟨s + 1, by simpa using hs, ?_, ?_, ?_⟩
      · rcases hG with ⟨g, hg1, hg2, hg3, hg4⟩ | ⟨hg1, hg2⟩
        · left
          refine ⟨g + 1, by rw [hg1]; congr 1; omega, by omega,
            by simpa [graphicsAt_cons_succ] using hg3, fun k h1 h2 => ?_⟩
          obtain ⟨k', rfl⟩ : ∃ k', k = k' + 1 := ⟨k - 1, by omega⟩
          rw [graphicsAt_cons_succ]
          exact hg4 k' (by omega) (by omega)
        · rw [scanStep_graphics] at hg1
          by_cases hq : hasGraphicsBit q = true
          · left
            refine ⟨0, by simpa [hq] using hg1, by omega,
              by simpa [graphicsAt_cons_zero] using hq, fun k h1 h2 => ?_⟩
            obtain ⟨k', rfl⟩ : ∃ k', k = k' + 1 := ⟨k - 1, by omega⟩
            rw [graphicsAt_cons_succ]
            exact hg2 k' (by omega)
          · right
            refine ⟨by simpa [hq] using hg1, fun k hk => ?_⟩
            cases k with
            | zero => simpa [graphicsAt_cons_zero] using hq
            | succ k' =>
              rw [graphicsAt_cons_succ]
              exact hg2 k' (by omega)
      · rcases hP with ⟨g, hg1, hg2, hg3, hg4⟩ | ⟨hg1, hg2⟩
        · left
          have e : i + (g + 1) = i + 1 + g := by omega
          refine ⟨g + 1, by rw [hg1]; congr 1; omega, by omega, by rw [e]; exact hg3,
            fun k h1 h2 => ?_⟩
          obtain ⟨k', rfl⟩ : ∃ k', k = k' + 1 := ⟨k - 1, by omega⟩
          have e' : i + (k' + 1) = i + 1 + k' := by omega
          rw [e']
          exact hg4 k' (by omega) (by omega)
        · rw [scanStep_present] at hg1
          by_cases hq : ss i = VK_TRUE
          · left
            refine ⟨0, by simpa [hq] using hg1, by omega, by simpa using hq, fun k h1 h2 => ?_⟩
            obtain ⟨k', rfl⟩ : ∃ k', k = k' + 1 := ⟨k - 1, by omega⟩
            have e' : i + (k' + 1) = i + 1 + k' := by omega
            rw [e']
            exact hg2 k' (by omega)
          · right
            refine ⟨by simpa [hq] using hg1, fun k hk => ?_⟩
            cases k with
            | zero => simpa using hq
            | succ k' =>
              have e' : i + (k' + 1) = i + 1 + k' := by omega
              rw [e']
              exact hg2 k' (by omega)
      · rcases hM with ⟨h1, h2⟩ | ⟨h1, h2⟩
        · left
          rw [scanStep_graphics] at h1
          by_cases hq : hasGraphicsBit q = true
          · simp [hq] at h1
          · refine ⟨by simpa [hq] using h1, fun k hk => ?_⟩
            cases k with
            | zero => simpa [graphicsAt_cons_zero] using hq
            | succ k' =>
              rw [graphicsAt_cons_succ]
              exact h2 k' (by omega)
        · right
          rw [scanStep_present] at h1
          by_cases hq : ss i = VK_TRUE
          · simp [hq] at h1
          · refine ⟨by simpa [hq] using h1, fun k hk => ?_⟩
            cases k with
            | zero => simpa using hq
            | succ k' =>
              have e' : i + (k' + 1) = i + 1 + k' := by omega
              rw [e']
              exact h2 k' (by omega)


/-- C2, as stated, fails: on two graphics-only families followed by a present-only one the
scan is complete and records graphics index 1, although family 0 has the graphics bit. -/
theorem scan_not_first_match : ¬ RecordsFirstMatch twoGraphicsThenPresent presentOnThird := by
  intro h
  obtain ⟨⟨g, hg, -, hmin⟩, -⟩ := h (by decide)
  have hg1 : (scanQueueFamilies twoGraphicsThenPresent presentOnThird).graphics = some 1 := by
    decide
  rw [hg1] at hg
  have := hmin 0 (by decide)
  simp at hg
  omega

/-- C2, amended: a complete scan stops at the first index `s` by which both a family with
the graphics bit and a family with present support have been seen; the recorded graphics
index is the largest index up to `s` with the graphics bit, and the recorded present index
the largest index up to `s` with present support. -/
theorem scan_records_last_match (queueFamilies : List VkQueueFamilyProperties)
    (surfaceSupport : Nat → Nat)
    (h : (scanQueueFamilies queueFamilies surfaceSupport).IsComplete = true) :
    ∃ g p s, (scanQueueFamilies queueFamilies surfaceSupport).graphics = some g ∧
      (scanQueueFamilies queueFamilies surfaceSupport).present = some p ∧
      s < queueFamilies.length ∧ g ≤ s ∧ p ≤ s ∧
      graphicsAt queueFamilies g = true ∧ presentAt queueFamilies surfaceSupport p = true ∧
      (∀ k, g < k → k ≤ s → graphicsAt queueFamilies k = false) ∧
      (∀ k, p < k → k ≤ s → presentAt queueFamilies surfaceSupport k = false) ∧
      ((∀ k, k < s → graphicsAt queueFamilies k = false) ∨
        (∀ k, k < s → presentAt queueFamilies surfaceSupport k = false)) := by
  unfold scanQueueFamilies at h ⊢
  obtain ⟨s, hs, hG, hP, hM⟩ := scanFrom_last_match surfaceSupport queueFamilies 0 {} rfl h
  have hc := h
  simp only [QueueFamilyIndices.IsComplete, Bool.and_eq_true] at hc
  rcases hG with ⟨g, hg1, hg2, hg3, hg4⟩ | ⟨hg1, -⟩
  swap
  · rw [hg1] at hc; simp at hc
  rcases hP with ⟨p, hp1, hp2, hp3, hp4⟩ | ⟨hp1, -⟩
  swap
  · rw [hp1] at hc; simp at hc
  refine ⟨g, p, s, by simpa using hg1, by simpa using hp1, hs, hg2, hp2, hg3, ?_, hg4, ?_, ?_⟩
  · simp only [presentAt, Bool.and_eq_true, decide_eq_true_eq, beq_iff_eq]
    exact ⟨by omega, by simpa using hp3⟩
  · intro k h1 h2
    have := hp4 k h1 h2
    simp only [presentAt]
    simp at this
    simp [this]
  · rcases hM with ⟨-, h2⟩ | ⟨-, h2⟩
    · exact Or.inl h2
    · right
      intro k hk
      have := h2 k hk
      simp at this
      simp [presentAt, this]

/-- The amended C2 at the three-family example. -/
theorem scan_records_last_match_witness :
    (scanQueueFamilies twoGraphicsThenPresent presentOnThird).IsComplete = true ∧
    ∃ g p s, (scanQueueFamilies twoGraphicsThenPresent presentOnThird).graphics = some g ∧
      (scanQueueFamilies twoGraphicsThenPresent presentOnThird).present = some p ∧
      s < twoGraphicsThenPresent.length ∧ g ≤ s ∧ p ≤ s ∧
      graphicsAt twoGraphicsThenPresent g = true ∧
      presentAt twoGraphicsThenPresent presentOnThird p = true ∧
      (∀ k, g < k → k ≤ s → graphicsAt twoGraphicsThenPresent k = false) ∧
      (∀ k, p < k → k ≤ s → presentAt twoGraphicsThenPresent presentOnThird k = false) ∧
      ((∀ k, k < s → graphicsAt twoGraphicsThenPresent k = false) ∨
        (∀ k, k < s → presentAt twoGraphicsThenPresent presentOnThird k = false)) :=
  ⟨by decide, scan_records_last_match twoGraphicsThenPresent presentOnThird (by decide)⟩


/-! ## Theorems: device selection -/

/-- A device failing one of the four checks is skipped: the loop continues on the rest
with only the examined list (and possibly `queueFamilyIndices`) changed. -/
theorem selectLoop_skip (fbWidth fbHeight : Int) (d : PhysicalDevice)
    (rest : List PhysicalDevice) (st : Selection) (h : isSuitable d = false) :
    ∃ st1 : Selection, st1.examined = st.examined ++ [d.handle] ∧
      selectLoop fbWidth fbHeight (d :: rest) st = selectLoop fbWidth fbHeight rest st1 := by
  unfold isSuitable at h
  rw [selectLoop]
  by_cases h1 : d.deviceType = VK_PHYSICAL_DEVICE_TYPE_DISCRETE_GPU
  · by_cases h2 : (scanQueueFamilies d.queueFamilies d.surfaceSupport).IsComplete = true
    · by_cases h3 : hasRequiredExtensions d.availableExtensions requiredDeviceExtensions = true
      · have h4 : (d.formats.isEmpty || d.presentModes.isEmpty) = true := by
          rw [h2, h3] at h
          simp only [h1, beq_self_eq_true, Bool.and_self, Bool.true_and,
            Bool.not_eq_false'] at h
          exact h
        simp only [h1, h2, h3, h4, ne_eq, not_true_eq_false, if_false, Bool.not_true,
          Bool.false_eq_true, if_true]
        exact ⟨_, rfl, rfl⟩
      · simp only [h1, h2, h3, ne_eq, not_true_eq_false, if_false, Bool.not_true,
          Bool.false_eq_true, Bool.not_eq_true, Bool.not_false, if_true]
        exact ⟨_, rfl, rfl⟩
    · simp only [h1, h2, ne_eq, not_true_eq_false, if_false, Bool.not_eq_true, Bool.not_false,
        if_true]
      exact ⟨_, rfl, rfl⟩
  · simp only [h1, ne_eq, not_false_eq_true, if_true]
    exact ⟨_, rfl, rfl⟩

/-- A device passing the four checks ends the loop with every variable written from
its own answers. -/
theorem selectLoop_take (fbWidth fbHeight : Int) (d : PhysicalDevice)
    (rest : List PhysicalDevice) (st : Selection) (h : isSuitable d = true) :
    selectLoop fbWidth fbHeight (d :: rest) st =
      { queueFamilyIndices := scanQueueFamilies d.queueFamilies d.surfaceSupport
        swapChainCapabilities := some d.surfaceCapabilities
        swapChainSurfaceFormat := chooseSurfaceFormat d.formats
        swapChainPresentMode := some VK_PRESENT_MODE_FIFO_KHR
        swapChainExtent := some (chooseSwapChainExtent d.surfaceCapabilities fbWidth fbHeight)
        m_pPhysicalDevice := d.handle
        examined := st.examined ++ [d.handle] } := by
  unfold isSuitable at h
  simp only [Bool.and_eq_true, beq_iff_eq, Bool.not_eq_true'] at h
  obtain ⟨⟨⟨h1, h2⟩, h3⟩, h4⟩ := h
  rw [selectLoop]
  simp [h1, h2, h3, h4]

/-- The state the loop ends in when device `k` is the first passing the four checks. -/
theorem selectLoop_first_suitable (fbWidth fbHeight : Int) (devices : List PhysicalDevice) :
    ∀ (k : Nat) (dk : PhysicalDevice) (st : Selection),
      devices[k]? = some dk →
      (∀ j d, j < k → devices[j]? = some d → isSuitable d = false) →
      isSuitable dk = true →
      selectLoop fbWidth fbHeight devices st =
        { queueFamilyIndices := scanQueueFamilies dk.queueFamilies dk.surfaceSupport
          swapChainCapabilities := some dk.surfaceCapabilities
          swapChainSurfaceFormat := chooseSurfaceFormat dk.formats
          swapChainPresentMode := some VK_PRESENT_MODE_FIFO_KHR
          swapChainExtent :=
            some (chooseSwapChainExtent dk.surfaceCapabilities fbWidth fbHeight)
          m_pPhysicalDevice := dk.handle
          examined := st.examined ++ (devices.take (k + 1)).map PhysicalDevice.handle } := by
  induction devices with
  | nil => intro k dk st hk; simp at hk
  | cons d rest ih =>
    intro k dk st hk hfirst hs
    cases k with
    | zero =>
      simp at hk
      subst hk
      rw [selectLoop_take fbWidth fbHeight d rest st hs]
      simp
    | succ k =>
      have hd : isSuitable d = false := hfirst 0 d (by omega) (by simp)
      obtain ⟨st1, hex, heq⟩ := selectLoop_skip fbWidth fbHeight d rest st hd
      rw [heq, ih k dk st1 (by simpa using hk)
        (fun j e hj he => hfirst (j + 1) e (by omega) (by simpa using he)) hs, hex]
      simp

/-- When device `k` is the first passing the four checks of the loop body, the loop
selects it, enters its body for devices `0..k` only, and ends in the same state whatever
devices follow `k`. -/
theorem selectPhysicalDevice_first_suitable (fbWidth fbHeight : Int) (physicalDevices : List PhysicalDevice)
    (k : Nat) (dk : PhysicalDevice) (hk : physicalDevices[k]? = some dk)
    (hfirst : ∀ j d, j < k → physicalDevices[j]? = some d → isSuitable d = false)
    (hs : isSuitable dk = true) :
    (selectPhysicalDevice fbWidth fbHeight physicalDevices).m_pPhysicalDevice = dk.handle ∧
    (selectPhysicalDevice fbWidth fbHeight physicalDevices).examined =
      (physicalDevices.take (k + 1)).map PhysicalDevice.handle ∧
    ∀ later : List PhysicalDevice,
      selectPhysicalDevice fbWidth fbHeight (physicalDevices.take (k + 1) ++ later) =
        selectPhysicalDevice fbWidth fbHeight physicalDevices := by
  have hlen : k < physicalDevices.length := by
    rcases Nat.lt_or_ge k physicalDevices.length with h | h
    · exact h
    · rw [List.getElem?_eq_none h] at hk; simp at hk
  have hmain := selectLoop_first_suitable fbWidth fbHeight physicalDevices k dk {} hk hfirst hs
  unfold selectPhysicalDevice
  refine ⟨by rw [hmain], by rw [hmain]; simp, fun later => ?_⟩
  have hlt : k < (physicalDevices.take (k + 1)).length := by
    simp; omega
  have hk2 : (physicalDevices.take (k + 1) ++ later)[k]? = some dk := by
    rw [List.getElem?_append_left hlt, List.getElem?_take_of_lt (by omega)]
    exact hk
  have hfirst2 : ∀ j d, j < k → (physicalDevices.take (k + 1) ++ later)[j]? = some d →
      isSuitable d = false := by
    intro j d hj hd
    have hjl : j < (physicalDevices.take (k + 1)).length := by omega
    rw [List.getElem?_append_left hjl, List.getElem?_take_of_lt (by omega)] at hd
    exact hfirst j d hj hd
  rw [selectLoop_first_suitable fbWidth fbHeight _ k dk {} hk2 hfirst2 hs, hmain]
  have htake : List.take (k + 1) (physicalDevices.take (k + 1) ++ later) =
      physicalDevices.take (k + 1) := by
    rw [List.take_append_eq_append_take]
    have hl : (physicalDevices.take (k + 1)).length = k + 1 := by
      rw [List.length_take]; omega
    simp [hl]
  rw [htake]

/-- The graphics test of the scan reads bit 0 of `queueFlags`. -/
theorem hasGraphicsBit_iff (q : VkQueueFamilyProperties) :
    hasGraphicsBit q = true ↔ q.queueFlags.testBit 0 = true := by
  unfold hasGraphicsBit VK_QUEUE_GRAPHICS_BIT
  rw [Nat.testBit_zero]
  simp [Nat.and_one_is_mod]

/-- Some index of the list has the graphics bit exactly when some family of the list has
bit 0 of its flags set. -/
theorem exists_graphicsAt_iff (l : List VkQueueFamilyProperties) :
    (∃ k, graphicsAt l k = true) ↔ ∃ q ∈ l, q.queueFlags.testBit 0 = true := by
  constructor
  · rintro ⟨k, hk⟩
    unfold graphicsAt at hk
    cases hq : l[k]? with
    | none => rw [hq] at hk; simp at hk
    | some q =>
      rw [hq] at hk
      exact ⟨q, List.getElem?_mem hq, (hasGraphicsBit_iff q).1 hk⟩
  · rintro ⟨q, hq, hbit⟩
    obtain ⟨k, hk⟩ := List.mem_iff_getElem?.1 hq
    refine ⟨k, ?_⟩
    unfold graphicsAt
    rw [hk]
    exact (hasGraphicsBit_iff q).2 hbit

/-- The extension loop succeeds exactly when an available extension is named
VK_KHR_swapchain. -/
theorem hasRequiredExtensions_iff (availableExtensions : List VkExtensionProperties) :
    hasRequiredExtensions availableExtensions requiredDeviceExtensions = true ↔
      ∃ e ∈ availableExtensions, e.extensionName = "VK_KHR_swapchain" := by
  unfold requiredDeviceExtensions VK_KHR_SWAPCHAIN_EXTENSION_NAME
  simp only [hasRequiredExtensions]
  cases h : availableExtensions.find? (fun crAvailableExtension =>
      crAvailableExtension.extensionName == "VK_KHR_swapchain") with
  | none =>
    simp only [Bool.false_eq_true, false_iff]
    rintro ⟨e, he, hname⟩
    rw [List.find?_eq_none] at h
    exact h e he (by simpa using hname)
  | some x =>
    simp only [true_iff]
    exact ⟨x, List.mem_of_find?_eq_some h, by simpa using List.find?_some h⟩

/-- The four checks of the loop body pass exactly on the devices meeting the four
selection criteria. -/
theorem isSuitable_iff_criteria (d : PhysicalDevice) :
    isSuitable d = true ↔ MeetsSelectionCriteria d := by
  unfold isSuitable MeetsSelectionCriteria
  have hscan : (scanQueueFamilies d.queueFamilies d.surfaceSupport).IsComplete = true ↔
      (∃ q ∈ d.queueFamilies, q.queueFlags.testBit 0 = true) ∧
      (∃ i, i < d.queueFamilies.length ∧ d.surfaceSupport i = VK_TRUE) := by
    unfold scanQueueFamilies
    rw [scanFrom_complete_iff, ← exists_graphicsAt_iff]
    simp
  simp only [Bool.and_eq_true, beq_iff_eq, Bool.not_eq_true', Bool.or_eq_false_iff,
    List.isEmpty_eq_false, hscan, hasRequiredExtensions_iff]
  tauto

/-- A device fails one of the four checks exactly when it misses a selection criterion. -/
theorem isSuitable_false_iff (d : PhysicalDevice) :
    isSuitable d = false ↔ ¬ MeetsSelectionCriteria d := by
  rw [← isSuitable_iff_criteria]
  simp

/-- C1: when device `k` is the first in the list that is a discrete GPU, has a queue family
with the graphics bit and a queue family with present support (so a complete set of queue
family indices), offers the extension VK_KHR_swapchain, and reports at least one surface
format and one present mode, the loop selects device `k`, enters its body for devices
`0..k` only, and ends in the same state whatever devices follow `k`. -/
theorem first_match_selection (fbWidth fbHeight : Int) (physicalDevices : List PhysicalDevice)
    (k : Nat) (dk : PhysicalDevice) (hk : physicalDevices[k]? = some dk)
    (hfirst : ∀ (j : Nat) (d : PhysicalDevice), j < k → physicalDevices[j]? = some d →
      ¬ MeetsSelectionCriteria d)
    (hs : MeetsSelectionCriteria dk) :
    (scanQueueFamilies dk.queueFamilies dk.surfaceSupport).IsComplete = true ∧
    (selectPhysicalDevice fbWidth fbHeight physicalDevices).m_pPhysicalDevice = dk.handle ∧
    (selectPhysicalDevice fbWidth fbHeight physicalDevices).examined =
      (physicalDevices.take (k + 1)).map PhysicalDevice.handle ∧
    ∀ later : List PhysicalDevice,
      selectPhysicalDevice fbWidth fbHeight (physicalDevices.take (k + 1) ++ later) =
        selectPhysicalDevice fbWidth fbHeight physicalDevices := by
  have hs1 : isSuitable dk = true := (isSuitable_iff_criteria dk).2 hs
  refine ⟨?_, selectPhysicalDevice_first_suitable fbWidth fbHeight physicalDevices k dk hk
    (fun j d hj hd => (isSuitable_false_iff d).2 (hfirst j d hj hd)) hs1⟩
  unfold isSuitable at hs1
  simp only [Bool.and_eq_true] at hs1
  exact hs1.1.1.2

/-- C1 on an enumeration in which an integrated GPU, a discrete GPU without the swap
chain extension and a discrete GPU without a graphics queue family come before two
discrete GPUs meeting every criterion: the fourth device is selected and the fifth is
never examined. -/
theorem first_match_selection_witness :
    (candidateDevices[3]? = some discreteGpu ∧ ¬ MeetsSelectionCriteria integratedGpu ∧
      ¬ MeetsSelectionCriteria noSwapchainGpu ∧ ¬ MeetsSelectionCriteria computeOnlyGpu ∧
      MeetsSelectionCriteria discreteGpu) ∧
    (hasRequiredExtensions noSwapchainGpu.availableExtensions requiredDeviceExtensions =
        false ∧
      hasRequiredExtensions discreteGpu.availableExtensions requiredDeviceExtensions = true ∧
      (scanQueueFamilies computeOnlyGpu.queueFamilies
        computeOnlyGpu.surfaceSupport).IsComplete = false) ∧
    (scanQueueFamilies discreteGpu.queueFamilies discreteGpu.surfaceSupport).IsComplete =
      true ∧
    (selectPhysicalDevice 1280 720 candidateDevices).m_pPhysicalDevice = discreteGpu.handle ∧
    (selectPhysicalDevice 1280 720 candidateDevices).examined =
      (candidateDevices.take (3 + 1)).map PhysicalDevice.handle ∧
    ∀ later : List PhysicalDevice,
      selectPhysicalDevice 1280 720 (candidateDevices.take (3 + 1) ++ later) =
        selectPhysicalDevice 1280 720 candidateDevices :=
  ⟨⟨rfl, fun h => absurd h.1 (by decide), fun h => absurd h.2.2.2.1 (by decide),
      fun h => absurd h.2.1 (by decide), by unfold MeetsSelectionCriteria; decide⟩,
    ⟨by decide, by decide, by decide⟩,
    first_match_selection 1280 720 candidateDevices 3 discreteGpu rfl
      (fun j d hj hd => by
        rcases (by omega : j = 0 ∨ j = 1 ∨ j = 2) with hj0 | hj1 | hj2
        · subst hj0
          have hd2 : integratedGpu = d := by simpa [candidateDevices] using hd
          subst hd2
          exact fun h => absurd h.1 (by decide)
        · subst hj1
          have hd2 : noSwapchainGpu = d := by simpa [candidateDevices] using hd
          subst hd2
          exact fun h => absurd h.2.2.2.1 (by decide)
        · subst hj2
          have hd2 : computeOnlyGpu = d := by simpa [candidateDevices] using hd
          subst hd2
          exact fun h => absurd h.2.1 (by decide))
      (by unfold MeetsSelectionCriteria; decide)⟩

/-! ## Theorems: swap chain facts -/

/-- The format test holds exactly for the preferred pair. -/
theorem isPreferredFormat_iff (f : VkSurfaceFormatKHR) :
    isPreferredFormat f = true ↔ f = preferredSurfaceFormat := by
  cases f with
  | mk format colorSpace =>
    simp [isPreferredFormat, preferredSurfaceFormat]

/-- Without a preferred entry the loop leaves the current choice. -/
theorem chooseFormatLoop_absent (l : List VkSurfaceFormatKHR) (chosen : VkSurfaceFormatKHR)
    (h : preferredSurfaceFormat ∉ l) : chooseFormatLoop l chosen = chosen := by
  induction l with
  | nil => rfl
  | cons f rest ih =>
    have hf : isPreferredFormat f = false := by
      cases hp : isPreferredFormat f with
      | false => rfl
      | true =>
        rw [isPreferredFormat_iff] at hp
        exact absurd (by simp [hp]) h
    rw [chooseFormatLoop]
    simp only [hf, Bool.false_eq_true, if_false]
    exact ih (fun hmem => h (List.mem_cons_of_mem _ hmem))

/-- With a preferred entry anywhere the loop ends on the preferred pair. -/
theorem chooseFormatLoop_present (l : List VkSurfaceFormatKHR) (chosen : VkSurfaceFormatKHR)
    (h : preferredSurfaceFormat ∈ l) : chooseFormatLoop l chosen = preferredSurfaceFormat := by
  induction l with
  | nil => simp at h
  | cons f rest ih =>
    rw [chooseFormatLoop]
    cases hp : isPreferredFormat f with
    | true =>
      simp only [if_true]
      exact (isPreferredFormat_iff f).1 hp
    | false =>
      simp only [Bool.false_eq_true, if_false]
      apply ih
      rcases List.mem_cons.1 h with h1 | h1
      · rw [← h1, (isPreferredFormat_iff _).2 rfl] at hp
        simp at hp
      · exact h1

/-- C4: on a non-empty list of surface formats, the chosen format is the first entry when
no entry is the pair (VK_FORMAT_B8G8R8A8_SRGB, VK_COLOR_SPACE_SRGB_NONLINEAR_KHR), and is
that pair when the list holds it at any position. -/
theorem surface_format_choice (formats : List VkSurfaceFormatKHR) (hne : formats ≠ []) :
    (preferredSurfaceFormat ∉ formats → chooseSurfaceFormat formats = formats.head?) ∧
    (preferredSurfaceFormat ∈ formats →
      chooseSurfaceFormat formats = some preferredSurfaceFormat) := by
  cases formats with
  | nil => exact absurd rfl hne
  | cons front rest =>
    constructor
    · intro h
      simp only [chooseSurfaceFormat, List.head?_cons]
      rw [chooseFormatLoop_absent _ _ h]
    · intro h
      simp only [chooseSurfaceFormat]
      rw [chooseFormatLoop_present _ _ h]

/-- C4 on a list whose third entry is the preferred pair. -/
theorem surface_format_choice_witness :
    preferredThird ≠ [] ∧
    (preferredSurfaceFormat ∉ preferredThird →
      chooseSurfaceFormat preferredThird = preferredThird.head?) ∧
    (preferredSurfaceFormat ∈ preferredThird →
      chooseSurfaceFormat preferredThird = some preferredSurfaceFormat) :=
  ⟨by decide, surface_format_choice preferredThird (by decide)⟩

/-- Reading back a non-negative `int32_t` as `uint32_t` keeps its value. -/
theorem toUint32_of_nonneg (x : Int) (h0 : 0 ≤ x) (h1 : x ≤ 2147483647) :
    (toUint32 x : Int) = x := by
  unfold toUint32
  rw [Int.emod_eq_of_lt h0 (by omega)]
  exact Int.toNat_of_nonneg h0

/-- On ordered bounds `std::clamp` is the nearest value of the interval. -/
theorem clamp_eq_max_min (v lo hi : Nat) (h : lo ≤ hi) : clamp v lo hi = max lo (min v hi) := by
  unfold clamp
  split
  · omega
  · split <;> omega

/-- On ordered bounds the clamped value lies within them. -/
theorem clamp_mem (v lo hi : Nat) (h : lo ≤ hi) : lo ≤ clamp v lo hi ∧ clamp v lo hi ≤ hi := by
  rw [clamp_eq_max_min v lo hi h]
  omega

/-- C5: for capabilities with `minImageExtent <= maxImageExtent` componentwise, when
`currentExtent` is (UINT32_MAX, UINT32_MAX) the chosen extent is the framebuffer size, as
read back in `uint32_t`, clamped componentwise into the bounds, which for a framebuffer
size of non-negative `int` values is that size clamped into the bounds; when neither
component of `currentExtent` is UINT32_MAX the chosen extent is `currentExtent`. -/
theorem extent_choice (caps : VkSurfaceCapabilitiesKHR) (fbWidth fbHeight : Int)
    (hw : caps.minImageExtent.width ≤ caps.maxImageExtent.width)
    (hh : caps.minImageExtent.height ≤ caps.maxImageExtent.height) :
    (caps.currentExtent = { width := UINT32_MAX, height := UINT32_MAX } →
      (chooseSwapChainExtent caps fbWidth fbHeight).width =
        max caps.minImageExtent.width (min (toUint32 fbWidth) caps.maxImageExtent.width) ∧
      (chooseSwapChainExtent caps fbWidth fbHeight).height =
        max caps.minImageExtent.height (min (toUint32 fbHeight) caps.maxImageExtent.height)) ∧
    (caps.currentExtent = { width := UINT32_MAX, height := UINT32_MAX } →
      0 ≤ fbWidth ∧ fbWidth ≤ 2147483647 → 0 ≤ fbHeight ∧ fbHeight ≤ 2147483647 →
      ((chooseSwapChainExtent caps fbWidth fbHeight).width : Int) =
        max (caps.minImageExtent.width : Int) (min fbWidth caps.maxImageExtent.width) ∧
      ((chooseSwapChainExtent caps fbWidth fbHeight).height : Int) =
        max (caps.minImageExtent.height : Int) (min fbHeight caps.maxImageExtent.height)) ∧
    (caps.currentExtent.width ≠ UINT32_MAX → caps.currentExtent.height ≠ UINT32_MAX →
      chooseSwapChainExtent caps fbWidth fbHeight = caps.currentExtent) := by
  have hgen : caps.currentExtent = { width := UINT32_MAX, height := UINT32_MAX } →
      (chooseSwapChainExtent caps fbWidth fbHeight).width =
        max caps.minImageExtent.width (min (toUint32 fbWidth) caps.maxImageExtent.width) ∧
      (chooseSwapChainExtent caps fbWidth fbHeight).height =
        max caps.minImageExtent.height
          (min (toUint32 fbHeight) caps.maxImageExtent.height) := by
    intro hcur
    unfold chooseSwapChainExtent
    simp only [hcur, true_or, if_true]
    rw [clamp_eq_max_min _ _ _ hw, clamp_eq_max_min _ _ _ hh]
    exact ⟨rfl, rfl⟩
  refine ⟨hgen, ?_, ?_⟩
  · intro hcur hfw hfh
    have e1 := toUint32_of_nonneg fbWidth hfw.1 hfw.2
    have e2 := toUint32_of_nonneg fbHeight hfh.1 hfh.2
    obtain ⟨g1, g2⟩ := hgen hcur
    rw [g1, g2]
    constructor
    · omega
    · omega
  · intro h1 h2
    unfold chooseSwapChainExtent
    simp [h1, h2]

/-- C5 for a 1280 x 720 framebuffer against bounds 1 .. 1024 and an undefined current
extent: the chosen extent is 1024 x 720. -/
theorem extent_choice_witness :
    (undefinedExtentCaps.minImageExtent.width ≤ undefinedExtentCaps.maxImageExtent.width ∧
      undefinedExtentCaps.minImageExtent.height ≤ undefinedExtentCaps.maxImageExtent.height) ∧
    ((chooseSwapChainExtent undefinedExtentCaps 1280 720).width : Int) =
      max (undefinedExtentCaps.minImageExtent.width : Int)
        (min 1280 undefinedExtentCaps.maxImageExtent.width) ∧
    ((chooseSwapChainExtent undefinedExtentCaps 1280 720).height : Int) =
      max (undefinedExtentCaps.minImageExtent.height : Int)
        (min 720 undefinedExtentCaps.maxImageExtent.height) :=
  ⟨by decide, (extent_choice undefinedExtentCaps 1280 720 (by decide) (by decide)).2.1
    (by decide) (by decide) (by decide)⟩

/-- C6: the requested image count is `minImageCount + 1` (in `uint32_t` arithmetic) when
`maxImageCount` is 0, and the smaller of that and `maxImageCount` otherwise; bounds
(2, 0) give 3 and bounds (2, 2) give 2. -/
theorem requested_image_count (caps : VkSurfaceCapabilitiesKHR) :
    requestedImageCount caps =
      (if caps.maxImageCount = 0 then (caps.minImageCount + 1) % 2 ^ 32
       else min ((caps.minImageCount + 1) % 2 ^ 32) caps.maxImageCount) ∧
    requestedImageCount { caps with minImageCount := 2, maxImageCount := 0 } = 3 ∧
    requestedImageCount { caps with minImageCount := 2, maxImageCount := 2 } = 2 := by
  refine ⟨?_, by simp [requestedImageCount], by simp [requestedImageCount]⟩
  unfold requestedImageCount
  by_cases h0 : caps.maxImageCount = 0
  · simp [h0]
  · simp only [h0, if_false]
    split
    · omega
    · omega

/-- C7: for a complete `QueueFamilyIndices` (and the other locals written by the device
loop), the create info handed to swap chain creation has exclusive sharing mode, index
count 0 and a null index pointer when graphics equals present, and concurrent sharing
mode, index count 2 and the index list [graphics, present] when they differ. -/
theorem sharing_mode_selection (m_pSurface : Nat) (sel : Selection) (g p : Nat)
    (hg : sel.queueFamilyIndices.graphics = some g)
    (hp : sel.queueFamilyIndices.present = some p)
    (hlocals : sel.swapChainCapabilities.isSome = true ∧
      sel.swapChainSurfaceFormat.isSome = true ∧ sel.swapChainPresentMode.isSome = true ∧
      sel.swapChainExtent.isSome = true) :
    sel.queueFamilyIndices.IsComplete = true ∧
    ∃ setup, createSwapChain m_pSurface sel = some setup ∧
      (g = p →
        setup.swapChainCreateInfo.imageSharingMode = VK_SHARING_MODE_EXCLUSIVE ∧
        setup.swapChainCreateInfo.queueFamilyIndexCount = 0 ∧
        setup.swapChainCreateInfo.pQueueFamilyIndices = none) ∧
      (g ≠ p →
        setup.swapChainCreateInfo.imageSharingMode = VK_SHARING_MODE_CONCURRENT ∧
        setup.swapChainCreateInfo.queueFamilyIndexCount = 2 ∧
        setup.swapChainCreateInfo.pQueueFamilyIndices = some [g, p]) := by
  obtain ⟨h1, h2, h3, h4⟩ := hlocals
  obtain ⟨caps, hcaps⟩ := Option.isSome_iff_exists.1 h1
  obtain ⟨fmt, hfmt⟩ := Option.isSome_iff_exists.1 h2
  obtain ⟨pm, hpm⟩ := Option.isSome_iff_exists.1 h3
  obtain ⟨ext, hext⟩ := Option.isSome_iff_exists.1 h4
  refine ⟨by simp [QueueFamilyIndices.IsComplete, hg, hp], ?_⟩
  by_cases hgp : g = p
  · subst hgp
    simp [createSwapChain, setSharingMode, QueueFamilyIndices.GetIndices, hg, hp, hcaps, hfmt,
      hpm, hext]
  · simp [createSwapChain, setSharingMode, QueueFamilyIndices.GetIndices, hg, hp, hcaps, hfmt,
      hpm, hext, hgp]

/-! ## Theorems: extension function calls and teardown -/

/-- The driver calls of one `vkCallFunctionEXT_IMPL` call: at most the lookup, then the
call through the resolved pointer. -/
theorem impl_calls_cases (driver : Driver) (m : List (Nat × Nat)) (pInstance : Nat)
    (name : CStr) (args : List Nat) (c : Call)
    (hc : c ∈ (vkCallFunctionEXT_IMPL driver m pInstance name args).calls) :
    c = Call.vkGetInstanceProcAddr pInstance name.text ∨
    c = Call.callExt (vkCallFunctionEXT_IMPL driver m pInstance name args).fFunction
      pInstance args := by
  unfold vkCallFunctionEXT_IMPL at hc ⊢
  cases hfind : mapFind m name.ptr with
  | some f =>
    simp only [hfind] at hc ⊢
    split at hc <;> simp_all
  | none =>
    simp only [hfind] at hc ⊢
    split at hc <;> simp_all

/-- A resolved (non-null) function is called. -/
theorem impl_calls_resolved (driver : Driver) (m : List (Nat × Nat)) (pInstance : Nat)
    (name : CStr) (args : List Nat)
    (h : (vkCallFunctionEXT_IMPL driver m pInstance name args).fFunction ≠ 0) :
    Call.callExt (vkCallFunctionEXT_IMPL driver m pInstance name args).fFunction pInstance args
      ∈ (vkCallFunctionEXT_IMPL driver m pInstance name args).calls := by
  unfold vkCallFunctionEXT_IMPL at h ⊢
  cases hfind : mapFind m name.ptr with
  | some f =>
    simp only [hfind] at h ⊢
    split <;> simp_all
  | none =>
    simp only [hfind] at h ⊢
    split <;> simp_all

/-- The calls of the messenger destruction step are lookups or calls through a pointer. -/
theorem destroyDebugMessenger_calls (CONFIG_DIST : Bool) (driver : Driver) (literal : Nat)
    (m : List (Nat × Nat)) (app : Application) (c : Call)
    (hc : c ∈ (destroyDebugMessenger CONFIG_DIST driver literal m app).2) :
    (∃ i n a, c = Call.vkCallVoidFunctionEXT i n a) ∨
    (∃ i n, c = Call.vkGetInstanceProcAddr i n) ∨ (∃ f i a, c = Call.callExt f i a) := by
  unfold destroyDebugMessenger at hc
  cases CONFIG_DIST with
  | true => simp at hc
  | false =>
    simp only [Bool.false_eq_true, if_false, List.mem_cons] at hc
    rcases hc with h | hc
    · exact Or.inl ⟨_, _, _, h⟩
    · rcases impl_calls_cases _ _ _ _ _ c hc with h | h
      · exact Or.inr (Or.inl ⟨_, _, h⟩)
      · exact Or.inr (Or.inr ⟨_, _, _, h⟩)

/-- C8: in the call sequence of the destructor every image view is destroyed before the
swap chain, the swap chain before the logical device, the device before the surface, the
surface before the instance, and the instance before the window is destroyed and GLFW is
terminated; with `CONFIG_DIST` off, the messenger destruction call of line 479 comes before
the instance destruction, and so does the driver function it reaches whenever
`vkDestroyDebugUtilsMessengerEXT` resolves to a non-null address. -/
theorem teardown_order (CONFIG_DIST : Bool) (driver : Driver) (literal : Nat)
    (m : List (Nat × Nat)) (app : Application) :
    (∀ pImageView ∈ app.m_SwapChainImageViews,
      Precedes (app.destructor CONFIG_DIST driver literal m).2
        (Call.vkDestroyImageView app.m_pDevice pImageView)
        (Call.vkDestroySwapchainKHR app.m_pDevice app.m_pSwapChain)) ∧
    Precedes (app.destructor CONFIG_DIST driver literal m).2
      (Call.vkDestroySwapchainKHR app.m_pDevice app.m_pSwapChain)
      (Call.vkDestroyDevice app.m_pDevice) ∧
    Precedes (app.destructor CONFIG_DIST driver literal m).2
      (Call.vkDestroyDevice app.m_pDevice)
      (Call.vkDestroySurfaceKHR app.m_pInstance app.m_pSurface) ∧
    Precedes (app.destructor CONFIG_DIST driver literal m).2
      (Call.vkDestroySurfaceKHR app.m_pInstance app.m_pSurface)
      (Call.vkDestroyInstance app.m_pInstance) ∧
    (CONFIG_DIST = false →
      Precedes (app.destructor CONFIG_DIST driver literal m).2
        (Call.vkCallVoidFunctionEXT app.m_pInstance "vkDestroyDebugUtilsMessengerEXT"
          [app.m_pDebugMessenger, 0])
        (Call.vkDestroyInstance app.m_pInstance)) ∧
    (CONFIG_DIST = false →
      (vkCallFunctionEXT_IMPL driver m app.m_pInstance (destroyMessengerName literal)
        [app.m_pDebugMessenger, 0]).fFunction ≠ 0 →
      Precedes (app.destructor CONFIG_DIST driver literal m).2
        (Call.callExt (vkCallFunctionEXT_IMPL driver m app.m_pInstance
          (destroyMessengerName literal) [app.m_pDebugMessenger, 0]).fFunction
          app.m_pInstance [app.m_pDebugMessenger, 0])
        (Call.vkDestroyInstance app.m_pInstance)) ∧
    Precedes (app.destructor CONFIG_DIST driver literal m).2
      (Call.vkDestroyInstance app.m_pInstance) (Call.glfwDestroyWindow app.m_pWindow) ∧
    Precedes (app.destructor CONFIG_DIST driver literal m).2
      (Call.vkDestroyInstance app.m_pInstance) Call.glfwTerminate := by
  have hmsg := destroyDebugMessenger_calls CONFIG_DIST driver literal m app
  have hnot : ∀ c : Call, ((∀ i n a, c ≠ Call.vkCallVoidFunctionEXT i n a) ∧
      ∀ i n, c ≠ Call.vkGetInstanceProcAddr i n) →
      (∀ f i a, c ≠ Call.callExt f i a) →
      c ∉ (destroyDebugMessenger CONFIG_DIST driver literal m app).2 := by
    intro c h1 h2 hc
    rcases hmsg c hc with ⟨i, n, a, h⟩ | ⟨i, n, h⟩ | ⟨f, i, a, h⟩
    · exact h1.1 i n a h
    · exact h1.2 i n h
    · exact h2 f i a h
  have hsc := hnot (Call.vkDestroySwapchainKHR app.m_pDevice app.m_pSwapChain)
    (by constructor <;> intros <;> simp) (by intros; simp)
  have hdev := hnot (Call.vkDestroyDevice app.m_pDevice) (by constructor <;> intros <;> simp) (by intros; simp)
  have hsurf := hnot (Call.vkDestroySurfaceKHR app.m_pInstance app.m_pSurface)
    (by constructor <;> intros <;> simp) (by intros; simp)
  have hinst := hnot (Call.vkDestroyInstance app.m_pInstance) (by constructor <;> intros <;> simp) (by intros; simp)
  have hview := fun v => hnot (Call.vkDestroyImageView app.m_pDevice v)
    (by constructor <;> intros <;> simp) (by intros; simp)
  refine ⟨?_, ?_, ?_, ?_, ?_, ?_, ?_, ?_⟩
  · intro v hv
    refine ⟨app.m_SwapChainImageViews.map (fun pImageView =>
        Call.vkDestroyImageView app.m_pDevice pImageView),
      [Call.vkDestroySwapchainKHR app.m_pDevice app.m_pSwapChain,
        Call.vkDestroyDevice app.m_pDevice,
        Call.vkDestroySurfaceKHR app.m_pInstance app.m_pSurface] ++
        (destroyDebugMessenger CONFIG_DIST driver literal m app).2 ++
        [Call.vkDestroyInstance app.m_pInstance, Call.glfwDestroyWindow app.m_pWindow,
          Call.glfwTerminate], ?_, ?_, ?_, ?_, ?_⟩
    · simp [Application.destructor]
    · exact List.mem_map.2 ⟨v, hv, rfl⟩
    · simpa using hview v
    · simp
    · simp
  · refine ⟨app.m_SwapChainImageViews.map (fun pImageView =>
        Call.vkDestroyImageView app.m_pDevice pImageView) ++
        [Call.vkDestroySwapchainKHR app.m_pDevice app.m_pSwapChain],
      [Call.vkDestroyDevice app.m_pDevice,
        Call.vkDestroySurfaceKHR app.m_pInstance app.m_pSurface] ++
        (destroyDebugMessenger CONFIG_DIST driver literal m app).2 ++
        [Call.vkDestroyInstance app.m_pInstance, Call.glfwDestroyWindow app.m_pWindow,
          Call.glfwTerminate], ?_, ?_, ?_, ?_, ?_⟩
    · simp [Application.destructor]
    · simp
    · simpa using hsc
    · simp
    · simp
  · refine ⟨app.m_SwapChainImageViews.map (fun pImageView =>
        Call.vkDestroyImageView app.m_pDevice pImageView) ++
        [Call.vkDestroySwapchainKHR app.m_pDevice app.m_pSwapChain,
          Call.vkDestroyDevice app.m_pDevice],
      [Call.vkDestroySurfaceKHR app.m_pInstance app.m_pSurface] ++
        (destroyDebugMessenger CONFIG_DIST driver literal m app).2 ++
        [Call.vkDestroyInstance app.m_pInstance, Call.glfwDestroyWindow app.m_pWindow,
          Call.glfwTerminate], ?_, ?_, ?_, ?_, ?_⟩
    · simp [Application.destructor]
    · simp
    · simpa using hdev
    · simp
    · simp
  · refine ⟨app.m_SwapChainImageViews.map (fun pImageView =>
        Call.vkDestroyImageView app.m_pDevice pImageView) ++
        [Call.vkDestroySwapchainKHR app.m_pDevice app.m_pSwapChain,
          Call.vkDestroyDevice app.m_pDevice,
          Call.vkDestroySurfaceKHR app.m_pInstance app.m_pSurface],
      (destroyDebugMessenger CONFIG_DIST driver literal m app).2 ++
        [Call.vkDestroyInstance app.m_pInstance, Call.glfwDestroyWindow app.m_pWindow,
          Call.glfwTerminate], ?_, ?_, ?_, ?_, ?_⟩
    · simp [Application.destructor]
    · simp
    · simpa using hsurf
    · simp
    · simp
  · intro hdist
    refine ⟨app.m_SwapChainImageViews.map (fun pImageView =>
        Call.vkDestroyImageView app.m_pDevice pImageView) ++
        [Call.vkDestroySwapchainKHR app.m_pDevice app.m_pSwapChain,
          Call.vkDestroyDevice app.m_pDevice,
          Call.vkDestroySurfaceKHR app.m_pInstance app.m_pSurface] ++
        (destroyDebugMessenger CONFIG_DIST driver literal m app).2,
      [Call.vkDestroyInstance app.m_pInstance, Call.glfwDestroyWindow app.m_pWindow,
        Call.glfwTerminate], ?_, ?_, ?_, ?_, ?_⟩
    · simp [Application.destructor]
    · simp only [List.mem_append]
      right
      simp [destroyDebugMessenger, hdist, destroyMessengerName]
    · simp
    · simp
    · simpa using hinst
  · intro hdist hres
    refine ⟨app.m_SwapChainImageViews.map (fun pImageView =>
        Call.vkDestroyImageView app.m_pDevice pImageView) ++
        [Call.vkDestroySwapchainKHR app.m_pDevice app.m_pSwapChain,
          Call.vkDestroyDevice app.m_pDevice,
          Call.vkDestroySurfaceKHR app.m_pInstance app.m_pSurface] ++
        (destroyDebugMessenger CONFIG_DIST driver literal m app).2,
      [Call.vkDestroyInstance app.m_pInstance, Call.glfwDestroyWindow app.m_pWindow,
        Call.glfwTerminate], ?_, ?_, ?_, ?_, ?_⟩
    · simp [Application.destructor]
    · have := impl_calls_resolved driver m app.m_pInstance (destroyMessengerName literal)
        [app.m_pDebugMessenger, 0] hres
      simp only [List.mem_append]
      right
      simp only [destroyDebugMessenger, hdist, Bool.false_eq_true, if_false, List.mem_cons]
      exact Or.inr this
    · simp
    · simp
    · simpa using hinst
  · refine ⟨app.m_SwapChainImageViews.map (fun pImageView =>
        Call.vkDestroyImageView app.m_pDevice pImageView) ++
        [Call.vkDestroySwapchainKHR app.m_pDevice app.m_pSwapChain,
          Call.vkDestroyDevice app.m_pDevice,
          Call.vkDestroySurfaceKHR app.m_pInstance app.m_pSurface] ++
        (destroyDebugMessenger CONFIG_DIST driver literal m app).2 ++
        [Call.vkDestroyInstance app.m_pInstance],
      [Call.glfwDestroyWindow app.m_pWindow, Call.glfwTerminate], ?_, ?_, ?_, ?_, ?_⟩
    · simp [Application.destructor]
    · simp
    · simp
    · simp
    · simpa using hnot (Call.glfwDestroyWindow app.m_pWindow) (by constructor <;> intros <;> simp)
        (by intros; simp)
  · refine ⟨app.m_SwapChainImageViews.map (fun pImageView =>
        Call.vkDestroyImageView app.m_pDevice pImageView) ++
        [Call.vkDestroySwapchainKHR app.m_pDevice app.m_pSwapChain,
          Call.vkDestroyDevice app.m_pDevice,
          Call.vkDestroySurfaceKHR app.m_pInstance app.m_pSurface] ++
        (destroyDebugMessenger CONFIG_DIST driver literal m app).2 ++
        [Call.vkDestroyInstance app.m_pInstance],
      [Call.glfwDestroyWindow app.m_pWindow, Call.glfwTerminate], ?_, ?_, ?_, ?_, ?_⟩
    · simp [Application.destructor]
    · simp
    · simp
    · simp
    · simpa using hnot Call.glfwTerminate (by constructor <;> intros <;> simp) (by intros; simp)

/-- After `m[key] = value` the key is found with that value. -/
theorem mapFind_mapAssign_same (m : List (Nat × Nat)) (key value : Nat) :
    mapFind (mapAssign m key value) key = some value := by
  simp [mapAssign, mapFind]

/-- Removing the entries of one key leaves the other keys as they were. -/
theorem mapFind_filter_ne (m : List (Nat × Nat)) (key other : Nat) (h : other ≠ key) :
    mapFind (m.filter (fun kv => kv.1 != key)) other = mapFind m other := by
  induction m with
  | nil => rfl
  | cons kv rest ih =>
    obtain ⟨k, v⟩ := kv
    by_cases hk : k = key
    · subst hk
      have hne : ¬ k = other := fun e => h e.symm
      simp [List.filter_cons, mapFind, hne, ih]
    · by_cases hko : k = other
      · subst hko
        simp [List.filter_cons, mapFind, hk]
      · simp [List.filter_cons, mapFind, hk, hko, ih]

/-- The assignment `m[key] = value` leaves the other keys as they were. -/
theorem mapFind_mapAssign_other (m : List (Nat × Nat)) (key value other : Nat)
    (h : other ≠ key) : mapFind (mapAssign m key value) other = mapFind m other := by
  have hne : ¬ key = other := fun e => h e.symm
  simp only [mapAssign, mapFind, hne, if_false]
  exact mapFind_filter_ne m key other h

/-- A request whose pointer is in the map uses the stored address and makes no lookup. -/
theorem impl_hit (driver : Driver) (m : List (Nat × Nat)) (pInstance : Nat) (name : CStr)
    (args : List Nat) (f : Nat) (h : mapFind m name.ptr = some f) :
    (vkCallFunctionEXT_IMPL driver m pInstance name args).fFunction = f ∧
    (vkCallFunctionEXT_IMPL driver m pInstance name args).lookedUp = false ∧
    (vkCallFunctionEXT_IMPL driver m pInstance name args).s_VulkanExtensionFunctions = m := by
  unfold vkCallFunctionEXT_IMPL
  simp only [h]
  split <;> simp [ExtResult.lookedUp]

/-- After any request its pointer is in the map with the address the request used. -/
theorem impl_caches (driver : Driver) (m : List (Nat × Nat)) (pInstance : Nat) (name : CStr)
    (args : List Nat) :
    mapFind (vkCallFunctionEXT_IMPL driver m pInstance name args).s_VulkanExtensionFunctions
      name.ptr = some (vkCallFunctionEXT_IMPL driver m pInstance name args).fFunction := by
  cases hfind : mapFind m name.ptr with
  | some f =>
    obtain ⟨h1, -, h3⟩ := impl_hit driver m pInstance name args f hfind
    rw [h1, h3, hfind]
  | none =>
    unfold vkCallFunctionEXT_IMPL
    simp only [hfind]
    split <;> simp [mapFind_mapAssign_same]

/-- A request never changes the address stored for a pointer already in the map. -/
theorem impl_preserves (driver : Driver) (m : List (Nat × Nat)) (pInstance : Nat)
    (name : CStr) (args : List Nat) (key f : Nat) (h : mapFind m key = some f) :
    mapFind (vkCallFunctionEXT_IMPL driver m pInstance name args).s_VulkanExtensionFunctions
      key = some f := by
  cases hfind : mapFind m name.ptr with
  | some f2 =>
    obtain ⟨-, -, h3⟩ := impl_hit driver m pInstance name args f2 hfind
    rw [h3, h]
  | none =>
    have hne : key ≠ name.ptr := by
      intro e
      rw [e, hfind] at h
      simp at h
    unfold vkCallFunctionEXT_IMPL
    simp only [hfind]
    split <;> simp [mapFind_mapAssign_other _ _ _ _ hne, h]

/-- Once a pointer is in the map, every later request passing it uses the stored address
and makes no lookup. -/
theorem runRequests_hit (driver : Driver) (requests : List ExtRequest) :
    ∀ (m : List (Nat × Nat)) (key f j : Nat) (rj : ExtRequest) (oj : ExtResult),
      mapFind m key = some f → requests[j]? = some rj → rj.cpFunctionName.ptr = key →
      (runRequests driver requests m)[j]? = some oj →
      oj.fFunction = f ∧ oj.lookedUp = false := by
  induction requests with
  | nil => intro m key f j rj oj _ hr; simp at hr
  | cons r rest ih =>
    intro m key f j rj oj hm hr hkey ho
    cases j with
    | zero =>
      simp only [List.getElem?_cons_zero, Option.some.injEq] at hr
      subst hr
      simp only [runRequests, List.getElem?_cons_zero, Option.some.injEq] at ho
      subst ho
      subst hkey
      obtain ⟨h1, h2, -⟩ := impl_hit driver m r.pInstance r.cpFunctionName r.args f hm
      exact ⟨h1, h2⟩
    | succ j =>
      simp only [List.getElem?_cons_succ] at hr
      simp only [runRequests, List.getElem?_cons_succ] at ho
      exact ih _ key f j rj oj (impl_preserves driver m _ _ _ key f hm) hr hkey ho

/-- Memoization per pointer, from any state of the map. -/
theorem runRequests_memo (driver : Driver) (requests : List ExtRequest) :
    ∀ m : List (Nat × Nat), MemoizesByPointer driver m requests := by
  induction requests with
  | nil => intro m i j ri rj oi oj _ hri; simp at hri
  | cons r rest ih =>
    intro m i j ri rj oi oj hij hri hrj hptr hoi hoj
    have ih2 : ∀ (m : List (Nat × Nat)) (i j : Nat) (ri rj : ExtRequest) (oi oj : ExtResult),
        i < j → rest[i]? = some ri → rest[j]? = some rj →
        ri.cpFunctionName.ptr = rj.cpFunctionName.ptr →
        (runRequests driver rest m)[i]? = some oi →
        (runRequests driver rest m)[j]? = some oj →
        oj.fFunction = oi.fFunction ∧ oj.lookedUp = false := ih
    cases j with
    | zero => omega
    | succ j =>
      simp only [List.getElem?_cons_succ] at hrj
      simp only [runRequests, List.getElem?_cons_succ] at hoj
      cases i with
      | zero =>
        simp only [List.getElem?_cons_zero, Option.some.injEq] at hri
        subst hri
        simp only [runRequests, List.getElem?_cons_zero, Option.some.injEq] at hoi
        subst hoi
        exact runRequests_hit driver rest _ r.cpFunctionName.ptr _ j rj oj
          (impl_caches driver m r.pInstance r.cpFunctionName r.args) hrj hptr.symm hoj
      | succ i =>
        simp only [List.getElem?_cons_succ] at hri
        simp only [runRequests, List.getElem?_cons_succ] at hoi
        exact ih2 _ i j ri rj oi oj (by omega) hri hrj hptr hoi hoj

/-- With the pointer in the map, no request passing it makes a lookup. -/
theorem lookupsForKey_of_cached (driver : Driver) (key : Nat) (requests : List ExtRequest) :
    ∀ (m : List (Nat × Nat)) (f : Nat), mapFind m key = some f →
      lookupsForKey key requests (runRequests driver requests m) = 0 := by
  induction requests with
  | nil => intro m f _; rfl
  | cons r rest ih =>
    intro m f hm
    have hrest := ih _ f (impl_preserves driver m r.pInstance r.cpFunctionName r.args key f hm)
    unfold lookupsForKey at hrest ⊢
    simp only [runRequests, List.zip_cons_cons, List.countP_cons, hrest, zero_add]
    by_cases hk : r.cpFunctionName.ptr = key
    · subst hk
      obtain ⟨-, h2, -⟩ := impl_hit driver m r.pInstance r.cpFunctionName r.args f hm
      simp [h2]
    · simp [hk]

/-- The lookup is made at most once per pointer, from any state of the map. -/
theorem lookupsForKey_le_one (driver : Driver) (key : Nat) (requests : List ExtRequest) :
    ∀ m : List (Nat × Nat), lookupsForKey key requests (runRequests driver requests m) ≤ 1 := by
  induction requests with
  | nil => intro m; simp [lookupsForKey, runRequests]
  | cons r rest ih =>
    intro m
    by_cases hk : r.cpFunctionName.ptr = key
    · have hrest := lookupsForKey_of_cached driver key rest _ _
        (hk ▸ impl_caches driver m r.pInstance r.cpFunctionName r.args)
      unfold lookupsForKey at hrest ⊢
      simp only [runRequests, List.zip_cons_cons, List.countP_cons, hrest, zero_add]
      split <;> omega
    · have hrest := ih (vkCallFunctionEXT_IMPL driver m r.pInstance r.cpFunctionName
        r.args).s_VulkanExtensionFunctions
      unfold lookupsForKey at hrest ⊢
      simp only [runRequests, List.zip_cons_cons, List.countP_cons]
      simp only [hk, beq_iff_eq, Bool.and_eq_true, false_and, if_false, add_zero]
      exact hrest

/-- Every outcome of a sequence is the outcome of its request on some state of the map,
so its pointer is in the map afterwards with the address the request used. -/
theorem runRequests_caches (driver : Driver) (requests : List ExtRequest) :
    ∀ (m : List (Nat × Nat)) (i : Nat) (ri : ExtRequest) (oi : ExtResult),
      requests[i]? = some ri → (runRequests driver requests m)[i]? = some oi →
      mapFind oi.s_VulkanExtensionFunctions ri.cpFunctionName.ptr = some oi.fFunction := by
  induction requests with
  | nil => intro m i ri oi hr; simp at hr
  | cons r rest ih =>
    intro m i ri oi hr ho
    cases i with
    | zero =>
      simp only [List.getElem?_cons_zero, Option.some.injEq] at hr
      subst hr
      simp only [runRequests, List.getElem?_cons_zero, Option.some.injEq] at ho
      subst ho
      exact impl_caches driver m r.pInstance r.cpFunctionName r.args
    | succ i =>
      simp only [List.getElem?_cons_succ] at hr
      simp only [runRequests, List.getElem?_cons_succ] at ho
      exact ih _ i ri oi hr ho

/-- When equal names come through equal pointers, the lookup is made at most once per
name. -/
theorem lookupsForName_le_one (driver : Driver) (m : List (Nat × Nat))
    (requests : List ExtRequest)
    (hlit : ∀ a ∈ requests, ∀ b ∈ requests, a.cpFunctionName.text = b.cpFunctionName.text →
      a.cpFunctionName.ptr = b.cpFunctionName.ptr) (name : String) :
    lookupsForName name requests (runRequests driver requests m) ≤ 1 := by
  have hkey : ∃ key, ∀ a ∈ requests, a.cpFunctionName.text = name →
      a.cpFunctionName.ptr = key := by
    by_cases h : ∃ a ∈ requests, a.cpFunctionName.text = name
    · obtain ⟨a, ha, hname⟩ := h
      exact ⟨a.cpFunctionName.ptr, fun b hb hbn => hlit b hb a ha (hbn.trans hname.symm)⟩
    · exact ⟨0, fun a ha hname => absurd ⟨a, ha, hname⟩ h⟩
  obtain ⟨key, hk⟩ := hkey
  refine le_trans ?_ (lookupsForKey_le_one driver key requests m)
  unfold lookupsForName lookupsForKey
  apply List.countP_mono_left
  intro ro hro hp
  obtain ⟨r, o⟩ := ro
  have hmem : r ∈ requests := (List.of_mem_zip hro).1
  simp only [Bool.and_eq_true, beq_iff_eq] at hp ⊢
  exact ⟨hk r hmem hp.1, hp.2⟩

/-- Two uses of the macros passing the same name pass the same pointer: each use has its
own literal, and the two names differ. -/
theorem callSiteName_ptr_of_text (literal : ExtCallSite → Nat) (a b : ExtCallSite)
    (h : (callSiteName literal a).text = (callSiteName literal b).text) :
    (callSiteName literal a).ptr = (callSiteName literal b).ptr := by
  cases a <;> cases b
  · rfl
  · simp [callSiteName, destroyMessengerName] at h
  · simp [callSiteName, destroyMessengerName] at h
  · rfl

/-- C9: for every sequence of `vkCallFunctionEXT_IMPL` calls made through the uses of the
macros, for every driver, placement of the string literals and state of the map, a request
for a function name requested before uses the address of the first resolution, which is
the one stored in `s_VulkanExtensionFunctions` under that name, and does not call
`vkGetInstanceProcAddr`; the lookup is made at most once per function name. -/
theorem extension_function_memoization (driver : Driver) (m : List (Nat × Nat))
    (literal : ExtCallSite → Nat) (calls : List SiteCall) :
    (∀ (i j : Nat) (ri rj : ExtRequest) (oi oj : ExtResult), i < j →
      (calls.map (siteRequest literal))[i]? = some ri →
      (calls.map (siteRequest literal))[j]? = some rj →
      ri.cpFunctionName.text = rj.cpFunctionName.text →
      (runRequests driver (calls.map (siteRequest literal)) m)[i]? = some oi →
      (runRequests driver (calls.map (siteRequest literal)) m)[j]? = some oj →
      oj.fFunction = oi.fFunction ∧ oj.lookedUp = false ∧
      mapFind oi.s_VulkanExtensionFunctions rj.cpFunctionName.ptr = some oi.fFunction) ∧
    (∀ name : String,
      lookupsForName name (calls.map (siteRequest literal))
        (runRequests driver (calls.map (siteRequest literal)) m) ≤ 1) := by
  have hlit : ∀ a ∈ calls.map (siteRequest literal), ∀ b ∈ calls.map (siteRequest literal),
      a.cpFunctionName.text = b.cpFunctionName.text →
      a.cpFunctionName.ptr = b.cpFunctionName.ptr := by
    intro a ha b hb htext
    obtain ⟨ca, -, rfl⟩ := List.mem_map.1 ha
    obtain ⟨cb, -, rfl⟩ := List.mem_map.1 hb
    exact callSiteName_ptr_of_text literal ca.site cb.site htext
  refine ⟨?_, fun name => lookupsForName_le_one driver m _ hlit name⟩
  intro i j ri rj oi oj hij hri hrj htext hoi hoj
  have hptr : ri.cpFunctionName.ptr = rj.cpFunctionName.ptr :=
    hlit ri (List.getElem?_mem hri) rj (List.getElem?_mem hrj) htext
  have hp : ∀ (i j : Nat) (ri rj : ExtRequest) (oi oj : ExtResult), i < j →
      (calls.map (siteRequest literal))[i]? = some ri →
      (calls.map (siteRequest literal))[j]? = some rj →
      ri.cpFunctionName.ptr = rj.cpFunctionName.ptr →
      (runRequests driver (calls.map (siteRequest literal)) m)[i]? = some oi →
      (runRequests driver (calls.map (siteRequest literal)) m)[j]? = some oj →
      oj.fFunction = oi.fFunction ∧ oj.lookedUp = false :=
    runRequests_memo driver (calls.map (siteRequest literal)) m
  obtain ⟨h1, h2⟩ := hp i j ri rj oi oj hij hri hrj hptr hoi hoj
  refine ⟨h1, h2, ?_⟩
  rw [← hptr]
  exact runRequests_caches driver _ m i ri oi hri hoi

/-- C9 on three executions, destruction, creation, destruction again: the third request
has the name of the first, uses the address of the first and makes no lookup, and the name
is looked up once. -/
theorem extension_function_memoization_witness :
    (∃ oi oj : ExtResult,
      (runRequests exampleDriver (exampleSiteCalls.map (siteRequest exampleLiterals))
        [])[0]? = some oi ∧
      (runRequests exampleDriver (exampleSiteCalls.map (siteRequest exampleLiterals))
        [])[2]? = some oj ∧
      oi.lookedUp = true ∧ oj.fFunction = oi.fFunction ∧ oj.lookedUp = false) ∧
    lookupsForName "vkDestroyDebugUtilsMessengerEXT"
      (exampleSiteCalls.map (siteRequest exampleLiterals))
      (runRequests exampleDriver (exampleSiteCalls.map (siteRequest exampleLiterals)) [])
        ≤ 1 :=
  ⟨⟨_, _, rfl, rfl, by decide,
      ((extension_function_memoization exampleDriver [] exampleLiterals exampleSiteCalls).1
        0 2 _ _ _ _ (by decide) rfl rfl rfl rfl rfl).1,
      ((extension_function_memoization exampleDriver [] exampleLiterals exampleSiteCalls).1
        0 2 _ _ _ _ (by decide) rfl rfl rfl rfl rfl).2.1⟩,
    (extension_function_memoization exampleDriver [] exampleLiterals exampleSiteCalls).2 _⟩

/-! ## Theorems: the extent bounds through selection and swap chain creation -/

/-- Whenever the bounds are ordered and the current extent is undefined or itself within
the bounds, the chosen extent is within the bounds. -/
theorem chooseSwapChainExtent_within (caps : VkSurfaceCapabilitiesKHR) (fbWidth fbHeight : Int)
    (hw : caps.minImageExtent.width ≤ caps.maxImageExtent.width)
    (hh : caps.minImageExtent.height ≤ caps.maxImageExtent.height)
    (hcur : (caps.currentExtent.width = UINT32_MAX ∨ caps.currentExtent.height = UINT32_MAX) ∨
      ExtentWithinBounds caps caps.currentExtent) :
    ExtentWithinBounds caps (chooseSwapChainExtent caps fbWidth fbHeight) := by
  unfold chooseSwapChainExtent
  by_cases hu : caps.currentExtent.width = UINT32_MAX ∨ caps.currentExtent.height = UINT32_MAX
  · simp only [hu, if_true]
    have h1 := clamp_mem (toUint32 fbWidth) _ _ hw
    have h2 := clamp_mem (toUint32 fbHeight) _ _ hh
    exact ⟨h1.1, h1.2, h2.1, h2.2⟩
  · simp only [hu, if_false]
    rcases hcur with h | h
    · exact absurd h hu
    · exact h

/-- A device passing the four checks has a complete scan and a chosen surface format. -/
theorem isSuitable_facts (d : PhysicalDevice) (h : isSuitable d = true) :
    (∃ g p, scanQueueFamilies d.queueFamilies d.surfaceSupport =
      { graphics := some g, present := some p }) ∧
    ∃ f, chooseSurfaceFormat d.formats = some f := by
  unfold isSuitable at h
  simp only [Bool.and_eq_true, beq_iff_eq, Bool.not_eq_true'] at h
  obtain ⟨⟨⟨-, h2⟩, -⟩, h4⟩ := h
  constructor
  · cases hq : scanQueueFamilies d.queueFamilies d.surfaceSupport with
    | mk graphics present =>
      rw [hq] at h2
      cases graphics <;> cases present <;> simp [QueueFamilyIndices.IsComplete] at h2
      exact ⟨_, _, rfl⟩
  · cases hf : d.formats with
    | nil => simp [hf] at h4
    | cons front rest => exact ⟨_, rfl⟩

/-- C10, as stated, fails: a suitable device whose surface reports the current extent
100 x 100 with minimum extent 200 x 200 is selected, and the extent stored and passed to
swap chain creation is 100 x 100, below the minimum. -/
theorem extent_bounds_not_invariant :
    ¬ ExtentBoundsInvariant 1280 720 5 [smallCurrentExtentGpu] := by
  intro h
  cases hc : createSwapChain 5 (selectPhysicalDevice 1280 720 [smallCurrentExtentGpu]) with
  | none => revert hc; decide
  | some setup =>
    have hmap : (createSwapChain 5 (selectPhysicalDevice 1280 720
        [smallCurrentExtentGpu])).map (fun s => s.m_SwapChainExtent) =
        some { width := 100, height := 100 } := by decide
    rw [hc] at hmap
    have hext : setup.m_SwapChainExtent = { width := 100, height := 100 } := by
      simpa using hmap
    have h1 := (h setup smallCurrentExtentCaps hc (by decide)).1
    rw [hext] at h1
    revert h1
    unfold ExtentWithinBounds
    decide

/-- C10, amended: when device `k` is the one the selector accepts, its capabilities have
ordered extent bounds, and its current extent either has a UINT32_MAX component or lies
within those bounds, swap chain creation goes through and the extent stored in
`m_SwapChainExtent`, which is the one passed to swap chain creation, lies within the
bounds of that device. -/
theorem extent_within_bounds (fbWidth fbHeight : Int) (m_pSurface : Nat)
    (physicalDevices : List PhysicalDevice) (k : Nat) (dk : PhysicalDevice)
    (hk : physicalDevices[k]? = some dk)
    (hfirst : ∀ j d, j < k → physicalDevices[j]? = some d → isSuitable d = false)
    (hs : isSuitable dk = true)
    (hw : dk.surfaceCapabilities.minImageExtent.width ≤
      dk.surfaceCapabilities.maxImageExtent.width)
    (hh : dk.surfaceCapabilities.minImageExtent.height ≤
      dk.surfaceCapabilities.maxImageExtent.height)
    (hcur : (dk.surfaceCapabilities.currentExtent.width = UINT32_MAX ∨
        dk.surfaceCapabilities.currentExtent.height = UINT32_MAX) ∨
      ExtentWithinBounds dk.surfaceCapabilities dk.surfaceCapabilities.currentExtent) :
    (selectPhysicalDevice fbWidth fbHeight physicalDevices).swapChainCapabilities =
      some dk.surfaceCapabilities ∧
    ∃ setup,
      createSwapChain m_pSurface (selectPhysicalDevice fbWidth fbHeight physicalDevices) =
        some setup ∧
      setup.swapChainCreateInfo.imageExtent = setup.m_SwapChainExtent ∧
      ExtentWithinBounds dk.surfaceCapabilities setup.m_SwapChainExtent := by
  have hmain := selectLoop_first_suitable fbWidth fbHeight physicalDevices k dk {} hk hfirst hs
  obtain ⟨⟨g, p, hq⟩, ⟨f, hf⟩⟩ := isSuitable_facts dk hs
  have hwithin := chooseSwapChainExtent_within dk.surfaceCapabilities fbWidth fbHeight hw hh hcur
  unfold selectPhysicalDevice
  rw [hmain, hq, hf]
  refine ⟨rfl, ?_⟩
  by_cases hgp : g = p
  · subst hgp
    simp [createSwapChain, setSharingMode, QueueFamilyIndices.GetIndices]
    exact hwithin
  · simp [createSwapChain, setSharingMode, QueueFamilyIndices.GetIndices, hgp]
    exact hwithin

/-- The amended C10 on the example enumeration, whose selected device reports the fixed
extent 1280 x 720 as current, minimum and maximum extent. -/
theorem extent_within_bounds_witness :
    (exampleDevices[1]? = some discreteGpu ∧ isSuitable integratedGpu = false ∧
      isSuitable discreteGpu = true) ∧
    (selectPhysicalDevice 1280 720 exampleDevices).swapChainCapabilities =
      some discreteGpu.surfaceCapabilities ∧
    ∃ setup,
      createSwapChain 5 (selectPhysicalDevice 1280 720 exampleDevices) = some setup ∧
      setup.swapChainCreateInfo.imageExtent = setup.m_SwapChainExtent ∧
      ExtentWithinBounds discreteGpu.surfaceCapabilities setup.m_SwapChainExtent :=
  ⟨⟨rfl, by decide, by decide⟩,
    extent_within_bounds 1280 720 5 exampleDevices 1 discreteGpu rfl
      (fun j d hj hd => by
        have hj0 : j = 0 := by omega
        subst hj0
        have hd2 : integratedGpu = d := by simpa [exampleDevices] using hd
        subst hd2
        decide)
      (by decide) (by decide) (by decide) (Or.inr (by unfold ExtentWithinBounds; decide))⟩

/-! ## Worked instances -/

/-- C7 on the variables left by the device loop on the example enumeration, where the
graphics family is 0 and the present family is 1. -/
theorem sharing_mode_selection_witness :
    (selectPhysicalDevice 1280 720 exampleDevices).queueFamilyIndices.IsComplete = true ∧
    ∃ setup, createSwapChain 5 (selectPhysicalDevice 1280 720 exampleDevices) = some setup ∧
      (0 = 1 →
        setup.swapChainCreateInfo.imageSharingMode = VK_SHARING_MODE_EXCLUSIVE ∧
        setup.swapChainCreateInfo.queueFamilyIndexCount = 0 ∧
        setup.swapChainCreateInfo.pQueueFamilyIndices = none) ∧
      (0 ≠ 1 →
        setup.swapChainCreateInfo.imageSharingMode = VK_SHARING_MODE_CONCURRENT ∧
        setup.swapChainCreateInfo.queueFamilyIndexCount = 2 ∧
        setup.swapChainCreateInfo.pQueueFamilyIndices = some [0, 1]) :=
  sharing_mode_selection 5 (selectPhysicalDevice 1280 720 exampleDevices) 0 1 (by decide)
    (by decide) (by decide)

/-- C8 on a build with the messenger and a driver resolving its destruction function: the
macro call and the driver function it reaches both come before the instance destruction. -/
theorem teardown_order_witness :
    Precedes (exampleApp.destructor false exampleDriver 9000 []).2
      (Call.vkCallVoidFunctionEXT 2 "vkDestroyDebugUtilsMessengerEXT" [3, 0])
      (Call.vkDestroyInstance 2) ∧
    Precedes (exampleApp.destructor false exampleDriver 9000 []).2
      (Call.callExt 7001 2 [3, 0]) (Call.vkDestroyInstance 2) :=
  ⟨(teardown_order false exampleDriver 9000 [] exampleApp).2.2.2.2.1 rfl,
    (teardown_order false exampleDriver 9000 [] exampleApp).2.2.2.2.2.1 rfl (by decide)⟩

/-! ## Theorems: selection failure and the configuration of the selected device -/

/-- A device failing one of the four checks leaves `m_pPhysicalDevice` as it was. -/
theorem selectLoop_skip_handle (fbWidth fbHeight : Int) (d : PhysicalDevice)
    (rest : List PhysicalDevice) (st : Selection) (h : isSuitable d = false) :
    ∃ st1 : Selection, st1.m_pPhysicalDevice = st.m_pPhysicalDevice ∧
      selectLoop fbWidth fbHeight (d :: rest) st = selectLoop fbWidth fbHeight rest st1 := by
  unfold isSuitable at h
  rw [selectLoop]
  by_cases h1 : d.deviceType = VK_PHYSICAL_DEVICE_TYPE_DISCRETE_GPU
  · by_cases h2 : (scanQueueFamilies d.queueFamilies d.surfaceSupport).IsComplete = true
    · by_cases h3 : hasRequiredExtensions d.availableExtensions requiredDeviceExtensions = true
      · have h4 : (d.formats.isEmpty || d.presentModes.isEmpty) = true := by
          rw [h2, h3] at h
          simp only [h1, beq_self_eq_true, Bool.and_self, Bool.true_and,
            Bool.not_eq_false'] at h
          exact h
        simp only [h1, h2, h3, h4, ne_eq, not_true_eq_false, if_false, Bool.not_true,
          Bool.false_eq_true, if_true]
        exact ⟨_, by rfl, rfl⟩
      · simp only [h1, h2, h3, ne_eq, not_true_eq_false, if_false, Bool.not_true,
          Bool.false_eq_true, Bool.not_eq_true, Bool.not_false, if_true]
        exact ⟨_, by rfl, rfl⟩
    · simp only [h1, h2, ne_eq, not_true_eq_false, if_false, Bool.not_eq_true, Bool.not_false,
        if_true]
      exact ⟨_, by rfl, rfl⟩
  · simp only [h1, ne_eq, not_false_eq_true, if_true]
    exact ⟨_, by rfl, rfl⟩

/-- When no device passes the four checks the loop never writes `m_pPhysicalDevice`. -/
theorem selectLoop_none (fbWidth fbHeight : Int) (devices : List PhysicalDevice) :
    ∀ st : Selection, (∀ d ∈ devices, isSuitable d = false) →
      (selectLoop fbWidth fbHeight devices st).m_pPhysicalDevice = st.m_pPhysicalDevice := by
  induction devices with
  | nil => intro st _; rfl
  | cons d rest ih =>
    intro st h
    obtain ⟨st1, h1, heq⟩ := selectLoop_skip_handle fbWidth fbHeight d rest st
      (h d (List.mem_cons_self _ _))
    rw [heq, ih st1 (fun e he => h e (List.mem_cons_of_mem _ he)), h1]

/-- A list holding a device that passes the four checks has a first such device. -/
theorem exists_first_suitable (devices : List PhysicalDevice)
    (h : ∃ d ∈ devices, isSuitable d = true) :
    ∃ (k : Nat) (dk : PhysicalDevice), devices[k]? = some dk ∧ isSuitable dk = true ∧
      ∀ (j : Nat) (d : PhysicalDevice), j < k → devices[j]? = some d →
        isSuitable d = false := by
  induction devices with
  | nil => obtain ⟨d, hd, -⟩ := h; simp at hd
  | cons d rest ih =>
    by_cases hd : isSuitable d = true
    · exact ⟨0, d, by simp, hd, fun j e hj _ => by omega⟩
    · have hd2 : isSuitable d = false := by simpa using hd
      obtain ⟨e, he, hes⟩ := h
      have her : e ∈ rest := by
        rcases List.mem_cons.1 he with h1 | h1
        · rw [h1, hd2] at hes; simp at hes
        · exact h1
      obtain ⟨k, dk, hk, hs, hfirst⟩ := ih ⟨e, her, hes⟩
      refine ⟨k + 1, dk, by simpa using hk, hs, fun j f hj hf => ?_⟩
      cases j with
      | zero =>
        simp only [List.getElem?_cons_zero, Option.some.injEq] at hf
        rw [← hf]; exact hd2
      | succ j => exact hfirst j f (by omega) (by simpa using hf)

/-- On a non-empty list of devices with non-null handles the final assertion fails, with
`m_pPhysicalDevice` left as `VK_NULL_HANDLE`, exactly when no device passes the four checks
of the loop body; a device that is selected passes them. -/
theorem selectOrAbort_error_iff (fbWidth fbHeight : Int) (physicalDevices : List PhysicalDevice)
    (hne : physicalDevices ≠ [])
    (hhandle : ∀ d ∈ physicalDevices, d.handle ≠ VK_NULL_HANDLE) :
    (selectOrAbort fbWidth fbHeight physicalDevices =
        Except.error "Failed to find suitable physical device." ↔
      ∀ d ∈ physicalDevices, isSuitable d = false) ∧
    ((selectPhysicalDevice fbWidth fbHeight physicalDevices).m_pPhysicalDevice =
        VK_NULL_HANDLE ↔
      ∀ d ∈ physicalDevices, isSuitable d = false) ∧
    (∀ sel, selectOrAbort fbWidth fbHeight physicalDevices = Except.ok sel →
      ∃ d ∈ physicalDevices, isSuitable d = true ∧
        d.deviceType = VK_PHYSICAL_DEVICE_TYPE_DISCRETE_GPU ∧
        sel.m_pPhysicalDevice = d.handle) := by
  have hlen : ¬ physicalDevices.length = 0 := by
    intro h0
    exact hne (List.length_eq_zero.1 h0)
  have hnull : (selectPhysicalDevice fbWidth fbHeight physicalDevices).m_pPhysicalDevice =
      VK_NULL_HANDLE ↔ ∀ d ∈ physicalDevices, isSuitable d = false := by
    constructor
    · intro hnul d hd
      by_contra hsuit
      have hsuit2 : isSuitable d = true := by simpa using hsuit
      obtain ⟨k, dk, hk, hs, hfirst⟩ := exists_first_suitable physicalDevices ⟨d, hd, hsuit2⟩
      have hmain := selectLoop_first_suitable fbWidth fbHeight physicalDevices k dk {} hk
        hfirst hs
      unfold selectPhysicalDevice at hnul
      rw [hmain] at hnul
      exact hhandle dk (List.getElem?_mem hk) hnul
    · intro hall
      unfold selectPhysicalDevice
      rw [selectLoop_none fbWidth fbHeight physicalDevices {} hall]
  refine ⟨?_, hnull, ?_⟩
  · unfold selectOrAbort
    simp only [hlen, if_false]
    constructor
    · intro herr
      apply hnull.1
      by_contra hn
      simp only [hn, if_false] at herr
      cases herr
    · intro hall
      simp only [hnull.2 hall, if_true]
  · intro sel hok
    unfold selectOrAbort at hok
    simp only [hlen, if_false] at hok
    by_cases hn : (selectPhysicalDevice fbWidth fbHeight physicalDevices).m_pPhysicalDevice =
        VK_NULL_HANDLE
    · simp only [hn, if_true] at hok
      cases hok
    · simp only [hn, if_false] at hok
      have hsel : selectPhysicalDevice fbWidth fbHeight physicalDevices = sel := by
        injection hok
      have hex : ∃ d ∈ physicalDevices, isSuitable d = true := by
        by_contra hno
        apply hn
        apply hnull.2
        intro d hd
        by_contra hsuit
        exact hno ⟨d, hd, by simpa using hsuit⟩
      obtain ⟨k, dk, hk, hs, hfirst⟩ := exists_first_suitable physicalDevices hex
      have hmain := selectLoop_first_suitable fbWidth fbHeight physicalDevices k dk {} hk
        hfirst hs
      refine ⟨dk, List.getElem?_mem hk, hs, ?_, ?_⟩
      · unfold isSuitable at hs
        simp only [Bool.and_eq_true, beq_iff_eq] at hs
        exact hs.1.1.1
      · rw [← hsel]
        unfold selectPhysicalDevice
        rw [hmain]
/-- C12: whenever selection succeeds, the selected device is the first device `k` of the
list passing the four checks, and the queue family indices used for logical device and
swap chain creation, as well as the capabilities, surface format, present mode and extent
used for swap chain creation, are the ones computed from the answers of device `k`, also
when an earlier candidate wrote `queueFamilyIndices` before being rejected. -/
theorem configuration_of_selected_device (fbWidth fbHeight : Int) (m_pSurface : Nat)
    (physicalDevices : List PhysicalDevice) (sel : Selection)
    (hok : selectOrAbort fbWidth fbHeight physicalDevices = Except.ok sel) :
    ∃ (k : Nat) (dk : PhysicalDevice) (g p : Nat) (fmt : VkSurfaceFormatKHR),
      physicalDevices[k]? = some dk ∧ isSuitable dk = true ∧
      (∀ (j : Nat) (d : PhysicalDevice), j < k → physicalDevices[j]? = some d →
        isSuitable d = false) ∧
      scanQueueFamilies dk.queueFamilies dk.surfaceSupport =
        { graphics := some g, present := some p } ∧
      chooseSurfaceFormat dk.formats = some fmt ∧
      sel.m_pPhysicalDevice = dk.handle ∧
      sel.queueFamilyIndices = { graphics := some g, present := some p } ∧
      sel.swapChainCapabilities = some dk.surfaceCapabilities ∧
      sel.swapChainSurfaceFormat = some fmt ∧
      sel.swapChainPresentMode = some VK_PRESENT_MODE_FIFO_KHR ∧
      sel.swapChainExtent =
        some (chooseSwapChainExtent dk.surfaceCapabilities fbWidth fbHeight) ∧
      (∃ dev, createLogicalDevice sel = some dev ∧
        dev.physicalDevice = dk.handle ∧
        dev.graphicsQueueFamily = g ∧ dev.presentQueueFamily = p ∧
        ∀ i, i ∈ dev.deviceQueueCreateInfos.map VkDeviceQueueCreateInfo.queueFamilyIndex ↔
          i = g ∨ i = p) ∧
      (∃ setup, createSwapChain m_pSurface sel = some setup ∧
        setup.swapChainCreateInfo.minImageCount = requestedImageCount dk.surfaceCapabilities ∧
        setup.swapChainCreateInfo.imageFormat = fmt.format ∧
        setup.swapChainCreateInfo.imageColorSpace = fmt.colorSpace ∧
        setup.swapChainCreateInfo.imageExtent =
          chooseSwapChainExtent dk.surfaceCapabilities fbWidth fbHeight ∧
        setup.swapChainCreateInfo.pQueueFamilyIndices = (if g = p then none else some [g, p]) ∧
        setup.swapChainCreateInfo.preTransform = dk.surfaceCapabilities.currentTransform ∧
        setup.swapChainCreateInfo.presentMode = VK_PRESENT_MODE_FIFO_KHR ∧
        setup.m_SwapChainFormat = fmt.format ∧
        setup.m_SwapChainExtent =
          chooseSwapChainExtent dk.surfaceCapabilities fbWidth fbHeight) := by
  unfold selectOrAbort at hok
  by_cases hlen : physicalDevices.length = 0
  · simp only [hlen, if_true] at hok
    cases hok
  simp only [hlen, if_false] at hok
  by_cases hn : (selectPhysicalDevice fbWidth fbHeight physicalDevices).m_pPhysicalDevice =
      VK_NULL_HANDLE
  · simp only [hn, if_true] at hok
    cases hok
  simp only [hn, if_false] at hok
  have hsel : selectPhysicalDevice fbWidth fbHeight physicalDevices = sel := by
    injection hok
  have hex : ∃ d ∈ physicalDevices, isSuitable d = true := by
    by_contra hno
    apply hn
    unfold selectPhysicalDevice
    rw [selectLoop_none fbWidth fbHeight physicalDevices {} (fun d hd => by
      by_contra hsuit
      exact hno ⟨d, hd, by simpa using hsuit⟩)]
  obtain ⟨k, dk, hk, hs, hfirst⟩ := exists_first_suitable physicalDevices hex
  have hmain := selectLoop_first_suitable fbWidth fbHeight physicalDevices k dk {} hk hfirst hs
  obtain ⟨⟨g, p, hq⟩, ⟨fmt, hf⟩⟩ := isSuitable_facts dk hs
  have hsel2 : sel =
      { queueFamilyIndices := { graphics := some g, present := some p }
        swapChainCapabilities := some dk.surfaceCapabilities
        swapChainSurfaceFormat := some fmt
        swapChainPresentMode := some VK_PRESENT_MODE_FIFO_KHR
        swapChainExtent :=
          some (chooseSwapChainExtent dk.surfaceCapabilities fbWidth fbHeight)
        m_pPhysicalDevice := dk.handle
        examined := ({} : Selection).examined ++
          (physicalDevices.take (k + 1)).map PhysicalDevice.handle } := by
    rw [← hsel]
    unfold selectPhysicalDevice
    rw [hmain, hq, hf]
  refine ⟨k, dk, g, p, fmt, hk, hs, hfirst, hq, hf, ?_, ?_, ?_, ?_, ?_, ?_, ?_, ?_⟩
  · rw [hsel2]
  · rw [hsel2]
  · rw [hsel2]
  · rw [hsel2]
  · rw [hsel2]
  · rw [hsel2]
  · rw [hsel2]
    by_cases hgp : g = p
    · subst hgp
      simp only [createLogicalDevice, QueueFamilyIndices.GetUniqueIndices, if_true]
      refine ⟨_, rfl, rfl, rfl, rfl, fun i => ?_⟩
      simp only [List.map_cons, List.map_nil, List.mem_singleton, or_self]
    · simp only [createLogicalDevice, QueueFamilyIndices.GetUniqueIndices, hgp, if_false]
      refine ⟨_, rfl, rfl, rfl, rfl, fun i => ?_⟩
      simp only [List.map_cons, List.map_nil, List.mem_cons, List.mem_singleton,
        List.not_mem_nil, or_false]
  · rw [hsel2]
    by_cases hgp : g = p
    · subst hgp
      simp [createSwapChain, setSharingMode, QueueFamilyIndices.GetIndices]
    · simp [createSwapChain, setSharingMode, QueueFamilyIndices.GetIndices, hgp]

/-- C12 on an enumeration whose first candidate passes the queue family check with
indices (0, 1) and is then rejected: the configuration is that of the second device, whose
indices are (0, 0). -/
theorem configuration_of_selected_device_witness :
    selectOrAbort 1280 720 staleCandidateDevices =
      Except.ok (selectPhysicalDevice 1280 720 staleCandidateDevices) ∧
    scanQueueFamilies noSwapchainGpu.queueFamilies noSwapchainGpu.surfaceSupport =
      { graphics := some 0, present := some 1 } ∧
    (selectPhysicalDevice 1280 720 staleCandidateDevices).queueFamilyIndices =
      { graphics := some 0, present := some 0 } ∧
    ∃ (k : Nat) (dk : PhysicalDevice) (g p : Nat) (fmt : VkSurfaceFormatKHR),
      staleCandidateDevices[k]? = some dk ∧ isSuitable dk = true ∧
      (∀ (j : Nat) (d : PhysicalDevice), j < k → staleCandidateDevices[j]? = some d →
        isSuitable d = false) ∧
      scanQueueFamilies dk.queueFamilies dk.surfaceSupport =
        { graphics := some g, present := some p } ∧
      chooseSurfaceFormat dk.formats = some fmt ∧
      (selectPhysicalDevice 1280 720 staleCandidateDevices).m_pPhysicalDevice = dk.handle ∧
      (selectPhysicalDevice 1280 720 staleCandidateDevices).queueFamilyIndices =
        { graphics := some g, present := some p } ∧
      (selectPhysicalDevice 1280 720 staleCandidateDevices).swapChainCapabilities =
        some dk.surfaceCapabilities ∧
      (selectPhysicalDevice 1280 720 staleCandidateDevices).swapChainSurfaceFormat =
        some fmt ∧
      (selectPhysicalDevice 1280 720 staleCandidateDevices).swapChainPresentMode =
        some VK_PRESENT_MODE_FIFO_KHR ∧
      (selectPhysicalDevice 1280 720 staleCandidateDevices).swapChainExtent =
        some (chooseSwapChainExtent dk.surfaceCapabilities 1280 720) ∧
      (∃ dev, createLogicalDevice (selectPhysicalDevice 1280 720 staleCandidateDevices) =
          some dev ∧
        dev.physicalDevice = dk.handle ∧
        dev.graphicsQueueFamily = g ∧ dev.presentQueueFamily = p ∧
        ∀ i, i ∈ dev.deviceQueueCreateInfos.map VkDeviceQueueCreateInfo.queueFamilyIndex ↔
          i = g ∨ i = p) ∧
      (∃ setup, createSwapChain 5 (selectPhysicalDevice 1280 720 staleCandidateDevices) =
          some setup ∧
        setup.swapChainCreateInfo.minImageCount = requestedImageCount dk.surfaceCapabilities ∧
        setup.swapChainCreateInfo.imageFormat = fmt.format ∧
        setup.swapChainCreateInfo.imageColorSpace = fmt.colorSpace ∧
        setup.swapChainCreateInfo.imageExtent =
          chooseSwapChainExtent dk.surfaceCapabilities 1280 720 ∧
        setup.swapChainCreateInfo.pQueueFamilyIndices = (if g = p then none else some [g, p]) ∧
        setup.swapChainCreateInfo.preTransform = dk.surfaceCapabilities.currentTransform ∧
        setup.swapChainCreateInfo.presentMode = VK_PRESENT_MODE_FIFO_KHR ∧
        setup.m_SwapChainFormat = fmt.format ∧
        setup.m_SwapChainExtent = chooseSwapChainExtent dk.surfaceCapabilities 1280 720) :=
  ⟨rfl, by decide, by decide,
    configuration_of_selected_device 1280 720 5 staleCandidateDevices
      (selectPhysicalDevice 1280 720 staleCandidateDevices) rfl⟩

/-- C11: on a non-empty list of physical devices (whose handles are not `VK_NULL_HANDLE`)
selection ends in the failed assertion "Failed to find suitable physical device.", with
`m_pPhysicalDevice` left as `VK_NULL_HANDLE`, exactly when no device of the list meets all
four criteria (discrete GPU, a graphics and a present queue family, the extension
VK_KHR_swapchain, at least one surface format and one present mode); a device that is
selected always meets them, so no non-discrete device is ever selected. -/
theorem selection_failure (fbWidth fbHeight : Int) (physicalDevices : List PhysicalDevice)
    (hne : physicalDevices ≠ [])
    (hhandle : ∀ d ∈ physicalDevices, d.handle ≠ VK_NULL_HANDLE) :
    (selectOrAbort fbWidth fbHeight physicalDevices =
        Except.error "Failed to find suitable physical device." ↔
      ∀ d ∈ physicalDevices, ¬ MeetsSelectionCriteria d) ∧
    ((selectPhysicalDevice fbWidth fbHeight physicalDevices).m_pPhysicalDevice =
        VK_NULL_HANDLE ↔
      ∀ d ∈ physicalDevices, ¬ MeetsSelectionCriteria d) ∧
    (∀ sel, selectOrAbort fbWidth fbHeight physicalDevices = Except.ok sel →
      ∃ d ∈ physicalDevices, MeetsSelectionCriteria d ∧
        d.deviceType = VK_PHYSICAL_DEVICE_TYPE_DISCRETE_GPU ∧
        sel.m_pPhysicalDevice = d.handle) := by
  obtain ⟨h1, h2, h3⟩ := selectOrAbort_error_iff fbWidth fbHeight physicalDevices hne hhandle
  have hconv : (∀ d ∈ physicalDevices, isSuitable d = false) ↔
      ∀ d ∈ physicalDevices, ¬ MeetsSelectionCriteria d :=
    ⟨fun h d hd => (isSuitable_false_iff d).1 (h d hd),
      fun h d hd => (isSuitable_false_iff d).2 (h d hd)⟩
  refine ⟨h1.trans hconv, h2.trans hconv, fun sel hok => ?_⟩
  obtain ⟨d, hd, hs, htype, hsel⟩ := h3 sel hok
  exact ⟨d, hd, (isSuitable_iff_criteria d).1 hs, htype, hsel⟩

/-- C11 in both directions: an enumeration of an integrated GPU and a discrete GPU without
the swap chain extension ends in the failed assertion, and an enumeration holding a device
that meets every criterion does not. -/
theorem selection_failure_witness :
    ((unsuitableDevices ≠ [] ∧ ∀ d ∈ unsuitableDevices, d.handle ≠ VK_NULL_HANDLE) ∧
      selectOrAbort 1280 720 unsuitableDevices =
        Except.error "Failed to find suitable physical device.") ∧
    ((candidateDevices ≠ [] ∧ ∀ d ∈ candidateDevices, d.handle ≠ VK_NULL_HANDLE) ∧
      MeetsSelectionCriteria discreteGpu ∧
      (hasRequiredExtensions discreteGpu.availableExtensions requiredDeviceExtensions = true ∧
        hasRequiredExtensions noSwapchainGpu.availableExtensions requiredDeviceExtensions =
          false) ∧
      selectOrAbort 1280 720 candidateDevices ≠
        Except.error "Failed to find suitable physical device.") :=
  ⟨⟨⟨List.cons_ne_nil _ _, by decide⟩,
      (selection_failure 1280 720 unsuitableDevices (List.cons_ne_nil _ _) (by decide)).1.2
        (fun d hd => by
          have hd2 : d = integratedGpu ∨ d = noSwapchainGpu := by
            simpa [unsuitableDevices] using hd
          rcases hd2 with h | h
          · subst h
            exact fun hm => absurd hm.1 (by decide)
          · subst h
            exact fun hm => absurd hm.2.2.2.1 (by decide))⟩,
    ⟨⟨List.cons_ne_nil _ _, by decide⟩, by unfold MeetsSelectionCriteria; decide,
      ⟨by decide, by decide⟩,
      fun herr =>
        (selection_failure 1280 720 candidateDevices (List.cons_ne_nil _ _)
          (by decide)).1.1 herr discreteGpu (by simp [candidateDevices])
          (by unfold MeetsSelectionCriteria; decide)⟩⟩

end LearningVulkan
